import Mathlib

/-!
Shallow embedding of `src/resume_builder.py` (package `resume_builder`),
the resume-to-HTML renderer.  Python classes become Lean inductives and
structures; every `__str__` / `render*` method becomes a Lean function
that mirrors the source statement by statement.  Python truthiness of
the optional fields is modelled explicitly (`None` and the empty string
or empty list are falsy; every other object, including a `Text` instance
holding an empty string, is truthy), and Python string interpolation of
`None` produces the text "None".
-/

namespace ResumeBuilder

/-- The closed set of text variants of the source: `Text` (plain),
`LinkText`, `BulletedList`, `ItalicsText`, `UnderlinedText`, `BoldText`,
`ConcatText`, together with the raw-string case of the `StrLike` union
(`StrLike = Union[str, Text]`). -/
inductive StrLike where
  | str : String → StrLike
  | text : String → StrLike
  | link : String → String → Bool → StrLike
  | bulleted : List StrLike → StrLike
  | italics : String → StrLike
  | underlined : String → StrLike
  | bold : String → StrLike
  | concat : List StrLike → StrLike


mutual

/-- Python `str(x)` on a `StrLike`: dispatches to each `__str__` of the
source.  A raw string passes through; `Text.__str__` returns the held
text; the other variants produce their HTML fragments. -/
def pyStr : StrLike → String
  | .str s => s
  | .text s => s
  | .link t u ic =>
      if !ic then
        "<a target=\"_blank\" href=\"" ++ u ++ "\">" ++ t ++ "</a>"
      else
        "<a target=\"_blank\" class=\"open-link\" href=\"" ++ u ++ "\">" ++ t ++ "</a>"
  | .bulleted items => bulletedFold items "<ul>\n" ++ "</ul>\n"
  | .italics s => "<p class=\"des\">" ++ s ++ "</p>"
  | .underlined s => "<span class=\"label\">" ++ s ++ "</span>"
  | .bold s => "<strong>" ++ s ++ "</strong>"
  | .concat args => joinMapPyStr args

/-- The accumulating loop of `BulletedList.__str__`:
`for item in self.items: s += f"<li><p>{item}</p></li>\n"`. -/
def bulletedFold : List StrLike → String → String
  | [], acc => acc
  | i :: rest, acc => bulletedFold rest (acc ++ "<li><p>" ++ pyStr i ++ "</p></li>\n")

/-- `ConcatText.__str__`: `"".join(map(str, self.args))`. -/
def joinMapPyStr : List StrLike → String
  | [] => ""
  | i :: rest => pyStr i ++ joinMapPyStr rest

end

/-- Python interpolation of an `OptionalStrLike`: `str(None)` is the
string "None", otherwise `str` of the value. -/
def pyShow : Option StrLike → String
  | none => "None"
  | some s => pyStr s

/-- Python truthiness of a `StrLike`: the empty raw string is falsy;
every `Text` object (no `__bool__`/`__len__` defined) is truthy, as is
any non-empty raw string. -/
def truthyStrLike : StrLike → Bool
  | .str s => !(s == "")
  | _ => true

/-- Python truthiness of an `OptionalStrLike` (`None` is falsy). -/
def truthyOpt : Option StrLike → Bool
  | none => false
  | some s => truthyStrLike s

/-- Python truthiness of `Optional[list[StrLike]]`: `None` and the empty
list are falsy. -/
def truthyDetails : Option (List StrLike) → Bool
  | none => false
  | some l => !l.isEmpty

/-- `class SectionEntry`: five optional fields. -/
structure SectionEntry where
  title : Option StrLike := none
  caption : Option StrLike := none
  location : Option StrLike := none
  dates : Option StrLike := none
  description : Option StrLike := none


/-- `class Section`: a title and an ordered list of entries. -/
structure Section where
  title : StrLike
  entries : List SectionEntry


/-- `class ContactInfo`: name, optional detail list, optional tagline. -/
structure ContactInfo where
  name : StrLike
  details : Option (List StrLike) := none
  tag_line : Option StrLike := none


/-- `class Summary`: optional title and description. -/
structure Summary where
  title : Option StrLike := none
  description : Option StrLike := none


/-- `class Resume`: contact info, sections, optional summary. -/
structure Resume where
  contact_info : ContactInfo
  sections : List Section
  summary : Option Summary := none


/-- `Resume.render_contact_info`, statement by statement: the `<h1>`
line, then the guarded details loop, then the tagline/else branch. -/
def render_contact_info (r : Resume) : String :=
  let s0 := "<h1 id=\"name\">" ++ pyStr r.contact_info.name ++ "</h1>\n"
  let s1 :=
    if truthyDetails r.contact_info.details then
      ((r.contact_info.details.getD []).foldl
          (fun acc d => acc ++ "<li>" ++ pyStr d ++ "</li>\n")
          (s0 ++ "<ul id=\"contact\">\n")) ++ "</ul>\n"
    else s0
  if truthyOpt r.contact_info.tag_line then
    s1 ++ "<p id=\"objective\">" ++ pyShow r.contact_info.tag_line ++ "</p>\n"
  else
    s1 ++ "<br>\n"

/-- `Resume.render_summary`: returns "" when `self.summary` is falsy
(`None`); otherwise interpolates `title` and `description` (which may be
`None`, printed as "None") into the fixed skeleton.  Note the source
appends the closing entry `</div>` without a newline. -/
def render_summary (r : Resume) : String :=
  match r.summary with
  | none => ""
  | some sm =>
      "<div class=\x27container\x27>\n" ++ "<section>\n" ++
      "<h2>" ++ pyShow sm.title ++ "</h2>\n" ++
      "<div class=\"entry\">\n" ++
      "<p>\n" ++ pyShow sm.description ++ "</p>\n" ++
      "</div>" ++ "</section>\n" ++ "</div>\n"

/-- The loop body of `Resume.render_section` for one entry: the entry
container and the five truthiness-guarded fields in source order. -/
def sectionEntryStep (acc : String) (entry : SectionEntry) : String :=
  let a := acc ++ "<div class=\"entry\">\n"
  let a := if truthyOpt entry.title then
      a ++ "<h3>" ++ pyShow entry.title ++ "</h3>\n" else a
  let a := if truthyOpt entry.caption then
      a ++ "<span class=\"role\">" ++ pyShow entry.caption ++ "</span>\n" else a
  let a := if truthyOpt entry.location then
      a ++ "<span class=\"loc\">" ++ pyShow entry.location ++ "</span>\n" else a
  let a := if truthyOpt entry.dates then
      a ++ "<span class=\"date\">" ++ pyShow entry.dates ++ "</span>\n" else a
  let a := if truthyOpt entry.description then
      a ++ "<p>\n" ++ pyShow entry.description ++ "</p>\n" else a
  a ++ "</div>\n"

/-- `Resume.render_section`: container/section skeleton, guarded section
title, then the entry loop. -/
def render_section (sec : Section) : String :=
  let s := "<div class=\x27container\x27>\n"
  let s := s ++ "<section>\n"
  let s := if truthyStrLike sec.title then
      s ++ "<h2>" ++ pyStr sec.title ++ "</h2>\n" else s
  let s := sec.entries.foldl sectionEntryStep s
  let s := s ++ "</section>\n"
  s ++ "</div>\n"

/-- `Resume.render_sections`: concatenates `render_section` over all
sections in order. -/
def render_sections (r : Resume) : String :=
  r.sections.foldl (fun acc sec => acc ++ render_section sec) ""

/-- Leading part of the dedented `TEMPLATE` string of `Resume.__init__`,
up to the `__NAME__` placeholder in the title element. -/

def tP1 : String := "\n<!DOCTYPE html>\n<html>\n<head>\n<meta charset=\"utf-8\">\n<meta name=\"viewport\" content=\"width=device-width; initial-scale=1.0; maximum-scale=1.0; user-scalable=0;\" />\n<title>"

/-- Template text between `__NAME__` and `__CONTACT_INFO__` (title tail,
style sheets, opening of the body), split into chunks so that facts about
it stay within kernel reduction limits. -/

def tC01 : String := "&rsquo;s Resume</title>\n<style>\nhtml\x7bfont-family:sans-serif;-ms-text-size-adjust:100%;-webkit-text-size-adjust:100%\x7dbody\x7bmargin:0\x7darticle,aside,details,figcaption,figure,footer,header,hgroup,main,menu,nav,section,summary\x7bdisplay:block\x7daudio,canvas,progress,video\x7bdisplay:inline-block;vertical-align:baseline\x7daudio:not([controls])\x7bdisplay:none;height:0\x7d[hidden],template\x7bdisplay:none\x7da\x7bbackground-color:"

def tC02 : String := "transparent\x7da:active,a:hover\x7boutline:0\x7dabbr[title]\x7bborder-bottom:1px dotted\x7db,strong\x7bfont-weight:bold\x7ddfn\x7bfont-style:italic\x7dh1\x7bfont-size:2em;margin:0.67em 0\x7dmark\x7bbackground:#ff0;color:#000\x7dsmall\x7bfont-size:80%\x7dsub,sup\x7bfont-size:75%;line-height:0;position:relative;vertical-align:baseline\x7dsup\x7btop:-0.5em\x7dsub\x7bbottom:-0.25em\x7dimg\x7bborder:0\x7dsvg:not(:root)\x7boverflow:hidden\x7dfigure\x7bmargin:1em 40px\x7dhr\x7b-moz-box-si"

def tC03 : String := "zing:content-box;box-sizing:content-box;height:0\x7dpre\x7boverflow:auto\x7dcode,kbd,pre,samp\x7bfont-family:monospace, monospace;font-size:1em\x7dbutton,input,optgroup,select,textarea\x7bcolor:inherit;font:inherit;margin:0\x7dbutton\x7boverflow:visible\x7dbutton,select\x7btext-transform:none\x7dbutton,html input[type=\"button\"],input[type=\"reset\"],input[type=\"submit\"]\x7b-webkit-appearance:button;cursor:pointer\x7dbutton[disabled],html i"

def tC04 : String := "nput[disabled]\x7bcursor:default\x7dbutton::-moz-focus-inner,input::-moz-focus-inner\x7bborder:0;padding:0\x7dinput\x7bline-height:normal\x7dinput[type=\"checkbox\"],input[type=\"radio\"]\x7bbox-sizing:border-box;padding:0\x7dinput[type=\"number\"]::-webkit-inner-spin-button,input[type=\"number\"]::-webkit-outer-spin-button\x7bheight:auto\x7dinput[type=\"search\"]\x7b-webkit-appearance:textfield;-moz-box-sizing:content-box;-webkit-box-sizing"

def tC05 : String := ":content-box;box-sizing:content-box\x7dinput[type=\"search\"]::-webkit-search-cancel-button,input[type=\"search\"]::-webkit-search-decoration\x7b-webkit-appearance:none\x7dfieldset\x7bborder:1px solid #c0c0c0;margin:0 2px;padding:0.35em 0.625em 0.75em\x7dlegend\x7bborder:0;padding:0\x7dtextarea\x7boverflow:auto\x7doptgroup\x7bfont-weight:bold\x7dtable\x7bborder-collapse:collapse;border-spacing:0\x7dtd,th\x7bpadding:0\x7d\n</style>\n<style>\nbody\x7bfont"

def tC06 : String := "-family:Georgia;font-size:14px;padding:1em;line-height:1.6\x7d.container,footer,header\x7bmax-width:72em;margin:auto\x7da\x7bcolor:black;text-decoration:none;border-bottom:1px dashed\x7dp\x7bmargin-top:0;margin-bottom:0;line-height:1.6em\x7dheader\x7btext-align:center;margin-bottom:1em\x7d#name\x7bfont-size:2.6em;font-variant:small-caps\x7d#objective\x7bfont-style:italic\x7d@media screen and (min-width: 72em)\x7bbody\x7bpadding:2em 4em;line-he"

def tC07 : String := "ight:inherit\x7d#name\x7bfloat:left;text-align:left\x7d#contact,#objective\x7btext-align:right\x7d\x7d.date\x7bfloat:right;text-align-last:right\x7d@media screen\x7b.print-only\x7bdisplay:none\x7d\x7dheader ul\x7blist-style:none;padding:0;margin:0\x7dheader li\x7bdisplay:inline-block;line-height:1.5em\x7dheader li::after\x7bcontent:\" |\"\x7dheader li:last-child::after\x7bcontent:\"\"\x7dfooter\x7btext-align:center\x7dh1,h2,h3,h4\x7bfont-weight:normal;margin:0\x7d.container"

def tC08 : String := " .label\x7bborder-bottom:1px solid\x7dsection\x7bmargin:1.25em 0\x7dsection:first-child\x7bmargin-top:0.25em\x7dh2\x7bfont-style:italic;border-bottom:1px solid grey;margin-bottom:0.5em\x7d.container ul\x7bmargin-top:0.1em;margin-bottom:0.1em;padding-left:20px\x7d.entry\x7bmargin:0.75em 0\x7dh3\x7bdisplay:inline-block;font-weight:bold\x7d.entry .role\x7b\x7d.entry .role::before\x7bcontent:\"(\"\x7d.entry .role::after\x7bcontent:\")\"\x7d.entry .loc\x7bfont-style:ita"

def tC09 : String := "lic\x7d.entry .des\x7bfont-style:italic\x7dp .entry .des\x7bmargin-top:0.1em\x7d.resume-objective\x7b\x7d.resume-project .project-name\x7bfont-weight:bold;line-height:1.6em\x7d.resume-project h3\x7b\x7d.meta\x7b\x7d.open-link\x7bpadding-right:1.2em;background-image:url(\x27data:image/svg+xml;base64,PHN2ZyB4bWxucz0iaHR0cDovL3d3dy53My5vcmcvMjAwMC9zdmciIHg9IjBweCIgeT0iMHB4IiB3aWR0aD0iMjQiIGhlaWdodD0iMjQiIHZpZXdCb3g9IjAgMCAyNCAyNCI+CjxwYXRoIGQ9Ik0"

def tC10 : String := "gNSAzIEMgMy45MDY5MzcyIDMgMyAzLjkwNjkzNzIgMyA1IEwgMyAxOSBDIDMgMjAuMDkzMDYzIDMuOTA2OTM3MiAyMSA1IDIxIEwgMTkgMjEgQyAyMC4wOTMwNjMgMjEgMjEgMjAuMDkzMDYzIDIxIDE5IEwgMjEgMTIgTCAxOSAxMiBMIDE5IDE5IEwgNSAxOSBMIDUgNSBMIDEyIDUgTCAxMiAzIEwgNSAzIHogTSAxNCAzIEwgMTQgNSBMIDE3LjU4NTkzOCA1IEwgOC4yOTI5Njg4IDE0LjI5Mjk2OSBMIDkuNzA3MDMxMiAxNS43MDcwMzEgTCAxOSA2LjQxNDA2MjUgTCAxOSAxMCBMIDIxIDEwIEwgMjEgMyBMIDE0IDMgeiI+PC9wYXRoP"

def tC11 : String := "go8L3N2Zz4=\x27);background-repeat:no-repeat;background-size:1em 1em;background-position:right center\x7d.open-link::after\x7bfont-size:0.8em\x7d\n</style>\n<style media=\"print\">\nbody\x7bpadding:0;margin:0;font-size:13px;line-height:inherit\x7da\x7btext-decoration:none;border-bottom:none\x7d.no-print\x7bdisplay:none\x7d#name\x7bfloat:left;text-align:left\x7d#contact,#objective\x7btext-align:right\x7d\n</style>\n</head>\n<body>\n<header>\n"

/-- Template text between `__CONTACT_INFO__` and `__SUMMARY__`. -/

def tP3 : String := "\n</header>\n<div class=\"container\">\n"

/-- Template text between `__SUMMARY__` and `__SECTIONS__`. -/

def tP4 : String := "\n</div>\n<div class=\"container\">\n"

/-- Template text after `__SECTIONS__`. -/

def tP5 : String := "\n</div>\n</body>\n</html>\n"

/-- The dedented `self.TEMPLATE` string of `Resume.__init__`: the literal
chunks above with the four placeholder tokens in their places. -/

def TEMPLATE : String :=
  tP1 ++ "__NAME__" ++ tC01 ++ tC02 ++ tC03 ++ tC04 ++ tC05 ++ tC06 ++ tC07 ++ tC08 ++ tC09 ++ tC10 ++ tC11
    ++ "__CONTACT_INFO__" ++ tP3 ++ "__SUMMARY__" ++ tP4 ++ "__SECTIONS__" ++ tP5

/-- A concrete resume: name set, no details, no tagline, no sections, and
a summary that is present. -/

def exampleResume : Resume :=
  { contact_info := { name := .str "Ada", details := none, tag_line := none },
    sections := [],
    summary := some { title := some (.str "About"), description := some (.str "Hi") } }

/-- The scan of Python `str.replace(old, new)` on character lists:
replaces every non-overlapping occurrence of `pat`, left to right.  The
recursion is made structural on a fuel argument; every step consumes at
least one character, so fuel equal to the length of the scanned list
(what `pyReplace` passes) is never exhausted.  The `pat ≠ []` guard
matches Python only on the non-degenerate patterns the renderer uses
(all three placeholders are non-empty). -/
def replaceAux (pat rep : List Char) : List Char → Nat → List Char
  | l, 0 => l
  | [], _ + 1 => []
  | c :: rest, fuel + 1 =>
    if pat.isPrefixOf (c :: rest) ∧ pat ≠ [] then
      rep ++ replaceAux pat rep (rest.drop (pat.length - 1)) fuel
    else
      c :: replaceAux pat rep rest fuel

/-- Python `s.replace(old, new)`. -/
def pyReplace (s old new : String) : String :=
  String.mk (replaceAux old.data new.data s.data s.data.length)

/-- `Resume.render`: substitutes `__NAME__`, `__CONTACT_INFO__` and
`__SECTIONS__` into the template via `str.replace`.  The source performs
no substitution for `__SUMMARY__` and never calls `render_summary`. -/
def render (r : Resume) : String :=
  let s := pyReplace TEMPLATE "__NAME__" (pyStr r.contact_info.name)
  let s := pyReplace s "__CONTACT_INFO__" (render_contact_info r)
  pyReplace s "__SECTIONS__" (render_sections r)

/-- Scans every suffix: does `pat` occur anywhere in `l`? -/
def containsSub : List Char → List Char → Bool
  | [], pat => pat.isEmpty
  | c :: rest, pat => pat.isPrefixOf (c :: rest) || containsSub rest pat

/-- Concatenation of the images of a list under a string-valued function,
with no separator.  Used to state what the accumulating render loops
compute. -/
def strConcatMap {α : Type} (f : α → String) : List α → String
  | [] => ""
  | x :: xs => f x ++ strConcatMap f xs

/-- The `<h1>` line of `render_contact_info`. -/
def contactH1 (ci : ContactInfo) : String :=
  "<h1 id=\"name\">" ++ pyStr ci.name ++ "</h1>\n"

/-- The detail-list block of `render_contact_info`: one `<li>` per detail
when the details list is truthy, nothing at all otherwise. -/
def contactDetailsBlock (ci : ContactInfo) : String :=
  if truthyDetails ci.details then
    "<ul id=\"contact\">\n" ++
      strConcatMap (fun d => "<li>" ++ pyStr d ++ "</li>\n") (ci.details.getD []) ++
      "</ul>\n"
  else ""

/-- The tagline paragraph of `render_contact_info`. -/
def taglinePara (tl : Option StrLike) : String :=
  "<p id=\"objective\">" ++ pyShow tl ++ "</p>\n"

/-- The final fragment of `render_contact_info`: the tagline paragraph
when the tagline is truthy, the fixed line-break fallback otherwise. -/
def contactEnding (tl : Option StrLike) : String :=
  if truthyOpt tl then taglinePara tl else "<br>\n"

/-- The conditional title fragment of one section entry. -/
def entryTitleFrag (e : SectionEntry) : String :=
  if truthyOpt e.title then "<h3>" ++ pyShow e.title ++ "</h3>\n" else ""

/-- The conditional caption (role) fragment of one section entry. -/
def entryCaptionFrag (e : SectionEntry) : String :=
  if truthyOpt e.caption then "<span class=\"role\">" ++ pyShow e.caption ++ "</span>\n" else ""

/-- The conditional location fragment of one section entry. -/
def entryLocationFrag (e : SectionEntry) : String :=
  if truthyOpt e.location then "<span class=\"loc\">" ++ pyShow e.location ++ "</span>\n" else ""

/-- The conditional dates fragment of one section entry. -/
def entryDatesFrag (e : SectionEntry) : String :=
  if truthyOpt e.dates then "<span class=\"date\">" ++ pyShow e.dates ++ "</span>\n" else ""

/-- The conditional description fragment of one section entry. -/
def entryDescriptionFrag (e : SectionEntry) : String :=
  if truthyOpt e.description then "<p>\n" ++ pyShow e.description ++ "</p>\n" else ""

/-- The complete fragment of one section entry: the unconditional entry
container around the five conditional fields, in source order. -/
def entryFrag (e : SectionEntry) : String :=
  "<div class=\"entry\">\n" ++ entryTitleFrag e ++ entryCaptionFrag e ++
    entryLocationFrag e ++ entryDatesFrag e ++ entryDescriptionFrag e ++ "</div>\n"

/-- The conditional section-title fragment of `render_section`. -/
def sectionTitleFrag (t : StrLike) : String :=
  if truthyStrLike t then "<h2>" ++ pyStr t ++ "</h2>\n" else ""

theorem replaceAux_nil (pat rep : List Char) (fuel : Nat) :
    replaceAux pat rep [] fuel = [] := by
  cases fuel <;> rfl

theorem isPrefixOf_take_eq (pat a b : List Char)
    (hab : a.take pat.length = b.take pat.length) :
    pat.isPrefixOf a = pat.isPrefixOf b := by
  induction pat generalizing a b with
  | nil => simp [List.isPrefixOf]
  | cons p pt ih =>
    cases a with
    | nil =>
      cases b with
      | nil => rfl
      | cons b0 b' => simp [List.take] at hab
    | cons a0 a' =>
      cases b with
      | nil => simp [List.take] at hab
      | cons b0 b' =>
        simp only [List.length_cons, List.take_succ_cons, List.cons.injEq] at hab
        simp only [List.isPrefixOf, hab.1, ih a' b' hab.2]

theorem isPrefixOf_append_of_le (pat a t : List Char) (hn : pat.length ≤ a.length) :
    pat.isPrefixOf (a ++ t) = pat.isPrefixOf a :=
  isPrefixOf_take_eq pat (a ++ t) a (by rw [List.take_append_of_le_length hn])

theorem containsSub_append_false (pat a b w t : List Char)
    (hb : b = w ++ t) (hlen : pat.length ≤ w.length + 1)
    (ha : containsSub (a ++ w) pat = false) (hbf : containsSub b pat = false) :
    containsSub (a ++ b) pat = false := by
  induction a with
  | nil => simpa using hbf
  | cons c a' ih =>
    have ha' : (pat.isPrefixOf (c :: (a' ++ w)) || containsSub (a' ++ w) pat) = false := ha
    rw [Bool.or_eq_false_iff] at ha'
    have hpre : pat.isPrefixOf (c :: (a' ++ b)) = false := by
      have h1 : c :: (a' ++ b) = (c :: (a' ++ w)) ++ t := by
        simp [hb, List.append_assoc]
      rw [h1, isPrefixOf_append_of_le]
      · exact ha'.1
      · simp only [List.length_cons, List.length_append]
        omega
    show (pat.isPrefixOf (c :: (a' ++ b)) || containsSub (a' ++ b) pat) = false
    rw [Bool.or_eq_false_iff]
    exact ⟨hpre, ih ha'.2⟩

theorem replaceAux_skip (pat rep x rest w t : List Char) (fuel : Nat)
    (hrest : rest = w ++ t) (hlen : pat.length ≤ w.length + 1)
    (h : containsSub (x ++ w) pat = false) (hf : x.length ≤ fuel) :
    replaceAux pat rep (x ++ rest) fuel = x ++ replaceAux pat rep rest (fuel - x.length) := by
  induction x generalizing fuel with
  | nil => simp
  | cons c x' ih =>
    cases fuel with
    | zero => simp at hf
    | succ f =>
      have h' : (pat.isPrefixOf (c :: (x' ++ w)) || containsSub (x' ++ w) pat) = false := h
      rw [Bool.or_eq_false_iff] at h'
      have hpre : pat.isPrefixOf (c :: (x' ++ rest)) = false := by
        have h1 : c :: (x' ++ rest) = (c :: (x' ++ w)) ++ t := by
          simp [hrest, List.append_assoc]
        rw [h1, isPrefixOf_append_of_le]
        · exact h'.1
        · simp only [List.length_cons, List.length_append]
          omega
      have step : replaceAux pat rep ((c :: x') ++ rest) (f + 1) =
          c :: replaceAux pat rep (x' ++ rest) f := by
        show replaceAux pat rep (c :: (x' ++ rest)) (f + 1) = _
        rw [replaceAux]
        rw [if_neg]
        intro hand
        rw [hpre] at hand
        exact absurd hand.1 (by simp)
      rw [step, ih f h'.2 (by simpa using Nat.le_of_succ_le_succ hf)]
      have harith : f - x'.length = f + 1 - (c :: x').length := by
        simp only [List.length_cons]
        omega
      rw [harith]
      rfl

theorem replaceAux_match (p0 : Char) (pt rep rest : List Char) (fuel : Nat) :
    replaceAux (p0 :: pt) rep ((p0 :: pt) ++ rest) (fuel + 1) =
      rep ++ replaceAux (p0 :: pt) rep rest fuel := by
  have hpre : (p0 :: pt).isPrefixOf ((p0 :: pt) ++ rest) = true := by
    rw [List.isPrefixOf_iff_prefix]
    exact List.prefix_append _ _
  show replaceAux (p0 :: pt) rep (p0 :: (pt ++ rest)) (fuel + 1) = _
  rw [replaceAux]
  rw [if_pos]
  · have hdrop : (pt ++ rest).drop ((p0 :: pt).length - 1) = rest := by
      simp only [List.length_cons, Nat.add_sub_cancel]
      exact List.drop_left pt rest
    rw [hdrop]
  · exact ⟨by exact_mod_cast hpre, by simp⟩

theorem replaceAux_all (pat rep : List Char) (l : List Char) (fuel : Nat)
    (h : containsSub l pat = false) (hf : l.length ≤ fuel) :
    replaceAux pat rep l fuel = l := by
  induction l generalizing fuel with
  | nil => exact replaceAux_nil pat rep fuel
  | cons c rest ih =>
    cases fuel with
    | zero => simp at hf
    | succ f =>
      have h' : (pat.isPrefixOf (c :: rest) || containsSub rest pat) = false := h
      rw [Bool.or_eq_false_iff] at h'
      rw [replaceAux]
      rw [if_neg]
      · rw [ih f h'.2 (by simpa using Nat.le_of_succ_le_succ hf)]
      · intro hand
        rw [h'.1] at hand
        exact absurd hand.1 (by simp)

theorem pyReplace_unique (s old new : String) (x y wx tx : List Char)
    (hs : s.data = x ++ (old.data ++ y))
    (hwx : old.data ++ y = wx ++ tx) (hlenx : old.data.length ≤ wx.length + 1)
    (hx : containsSub (x ++ wx) old.data = false)
    (hy : containsSub y old.data = false) :
    (pyReplace s old new).data = x ++ (new.data ++ y) := by
  obtain ⟨p0, pt, hp⟩ : ∃ c tl, old.data = c :: tl := by
    cases hc : old.data with
    | nil =>
      exfalso
      have htrue : ∀ l : List Char, containsSub l [] = true := by
        intro l
        cases l with
        | nil => rfl
        | cons a b => simp [containsSub, List.isPrefixOf]
      have hx' := hx
      rw [hc, htrue (x ++ wx)] at hx'
      exact Bool.noConfusion hx'
    | cons c tl => exact ⟨c, tl, rfl⟩
  show (String.mk (replaceAux old.data new.data s.data s.data.length)).data = _
  rw [hs]
  have hlens : (x ++ (old.data ++ y)).length = x.length + (old.data.length + y.length) := by
    simp [List.length_append]
  rw [hlens]
  rw [replaceAux_skip old.data new.data x (old.data ++ y) wx tx _ hwx hlenx hx (by omega)]
  have harith : x.length + (old.data.length + y.length) - x.length =
      (old.data.length + y.length - 1) + 1 := by
    rw [hp]; simp only [List.length_cons]; omega
  rw [harith]
  rw [hp, replaceAux_match p0 pt new.data y _]
  rw [← hp]
  rw [replaceAux_all old.data new.data y _ hy (by rw [hp]; simp only [List.length_cons]; omega)]

set_option maxRecDepth 10000 in
/-- The template text after the name placeholder contains no occurrence of
the name token. -/
theorem c1_tail_nameFree : containsSub (tC01.data ++ (tC02.data ++ (tC03.data ++ (tC04.data ++ (tC05.data ++ (tC06.data ++ (tC07.data ++ (tC08.data ++ (tC09.data ++ (tC10.data ++ (tC11.data ++ (("__CONTACT_INFO__" : String).data ++ (tP3.data ++ (("__SUMMARY__" : String).data ++ (tP4.data ++ (("__SECTIONS__" : String).data ++ (tP5.data))))))))))))))))) ("__NAME__" : String).data = false := by
  have f17 : containsSub (tP5.data) ("__NAME__" : String).data = false := by decide
  have f16 : containsSub (("__SECTIONS__" : String).data ++ (tP5.data)) ("__NAME__" : String).data = false :=
    containsSub_append_false ("__NAME__" : String).data (("__SECTIONS__" : String).data) (tP5.data) (tP5.data) (([] : List Char))
      (by simp [List.append_assoc]) (by decide) (by decide) f17
  have f15 : containsSub (tP4.data ++ (("__SECTIONS__" : String).data ++ (tP5.data))) ("__NAME__" : String).data = false :=
    containsSub_append_false ("__NAME__" : String).data (tP4.data) (("__SECTIONS__" : String).data ++ (tP5.data)) (("__SECTIONS__" : String).data) (tP5.data)
      (by simp [List.append_assoc]) (by decide) (by decide) f16
  have f14 : containsSub (("__SUMMARY__" : String).data ++ (tP4.data ++ (("__SECTIONS__" : String).data ++ (tP5.data)))) ("__NAME__" : String).data = false :=
    containsSub_append_false ("__NAME__" : String).data (("__SUMMARY__" : String).data) (tP4.data ++ (("__SECTIONS__" : String).data ++ (tP5.data))) (tP4.data) (("__SECTIONS__" : String).data ++ (tP5.data))
      (by simp [List.append_assoc]) (by decide) (by decide) f15
  have f13 : containsSub (tP3.data ++ (("__SUMMARY__" : String).data ++ (tP4.data ++ (("__SECTIONS__" : String).data ++ (tP5.data))))) ("__NAME__" : String).data = false :=
    containsSub_append_false ("__NAME__" : String).data (tP3.data) (("__SUMMARY__" : String).data ++ (tP4.data ++ (("__SECTIONS__" : String).data ++ (tP5.data)))) (("__SUMMARY__" : String).data) (tP4.data ++ (("__SECTIONS__" : String).data ++ (tP5.data)))
      (by simp [List.append_assoc]) (by decide) (by decide) f14
  have f12 : containsSub (("__CONTACT_INFO__" : String).data ++ (tP3.data ++ (("__SUMMARY__" : String).data ++ (tP4.data ++ (("__SECTIONS__" : String).data ++ (tP5.data)))))) ("__NAME__" : String).data = false :=
    containsSub_append_false ("__NAME__" : String).data (("__CONTACT_INFO__" : String).data) (tP3.data ++ (("__SUMMARY__" : String).data ++ (tP4.data ++ (("__SECTIONS__" : String).data ++ (tP5.data))))) (tP3.data) (("__SUMMARY__" : String).data ++ (tP4.data ++ (("__SECTIONS__" : String).data ++ (tP5.data))))
      (by simp [List.append_assoc]) (by decide) (by decide) f13
  have f11 : containsSub (tC11.data ++ (("__CONTACT_INFO__" : String).data ++ (tP3.data ++ (("__SUMMARY__" : String).data ++ (tP4.data ++ (("__SECTIONS__" : String).data ++ (tP5.data))))))) ("__NAME__" : String).data = false :=
    containsSub_append_false ("__NAME__" : String).data (tC11.data) (("__CONTACT_INFO__" : String).data ++ (tP3.data ++ (("__SUMMARY__" : String).data ++ (tP4.data ++ (("__SECTIONS__" : String).data ++ (tP5.data)))))) (("__CONTACT_INFO__" : String).data) (tP3.data ++ (("__SUMMARY__" : String).data ++ (tP4.data ++ (("__SECTIONS__" : String).data ++ (tP5.data)))))
      (by simp [List.append_assoc]) (by decide) (by decide) f12
  have f10 : containsSub (tC10.data ++ (tC11.data ++ (("__CONTACT_INFO__" : String).data ++ (tP3.data ++ (("__SUMMARY__" : String).data ++ (tP4.data ++ (("__SECTIONS__" : String).data ++ (tP5.data)))))))) ("__NAME__" : String).data = false :=
    containsSub_append_false ("__NAME__" : String).data (tC10.data) (tC11.data ++ (("__CONTACT_INFO__" : String).data ++ (tP3.data ++ (("__SUMMARY__" : String).data ++ (tP4.data ++ (("__SECTIONS__" : String).data ++ (tP5.data))))))) (tC11.data) (("__CONTACT_INFO__" : String).data ++ (tP3.data ++ (("__SUMMARY__" : String).data ++ (tP4.data ++ (("__SECTIONS__" : String).data ++ (tP5.data))))))
      (by simp [List.append_assoc]) (by decide) (by decide) f11
  have f9 : containsSub (tC09.data ++ (tC10.data ++ (tC11.data ++ (("__CONTACT_INFO__" : String).data ++ (tP3.data ++ (("__SUMMARY__" : String).data ++ (tP4.data ++ (("__SECTIONS__" : String).data ++ (tP5.data))))))))) ("__NAME__" : String).data = false :=
    containsSub_append_false ("__NAME__" : String).data (tC09.data) (tC10.data ++ (tC11.data ++ (("__CONTACT_INFO__" : String).data ++ (tP3.data ++ (("__SUMMARY__" : String).data ++ (tP4.data ++ (("__SECTIONS__" : String).data ++ (tP5.data)))))))) (tC10.data) (tC11.data ++ (("__CONTACT_INFO__" : String).data ++ (tP3.data ++ (("__SUMMARY__" : String).data ++ (tP4.data ++ (("__SECTIONS__" : String).data ++ (tP5.data)))))))
      (by simp [List.append_assoc]) (by decide) (by decide) f10
  have f8 : containsSub (tC08.data ++ (tC09.data ++ (tC10.data ++ (tC11.data ++ (("__CONTACT_INFO__" : String).data ++ (tP3.data ++ (("__SUMMARY__" : String).data ++ (tP4.data ++ (("__SECTIONS__" : String).data ++ (tP5.data)))))))))) ("__NAME__" : String).data = false :=
    containsSub_append_false ("__NAME__" : String).data (tC08.data) (tC09.data ++ (tC10.data ++ (tC11.data ++ (("__CONTACT_INFO__" : String).data ++ (tP3.data ++ (("__SUMMARY__" : String).data ++ (tP4.data ++ (("__SECTIONS__" : String).data ++ (tP5.data))))))))) (tC09.data) (tC10.data ++ (tC11.data ++ (("__CONTACT_INFO__" : String).data ++ (tP3.data ++ (("__SUMMARY__" : String).data ++ (tP4.data ++ (("__SECTIONS__" : String).data ++ (tP5.data))))))))
      (by simp [List.append_assoc]) (by decide) (by decide) f9
  have f7 : containsSub (tC07.data ++ (tC08.data ++ (tC09.data ++ (tC10.data ++ (tC11.data ++ (("__CONTACT_INFO__" : String).data ++ (tP3.data ++ (("__SUMMARY__" : String).data ++ (tP4.data ++ (("__SECTIONS__" : String).data ++ (tP5.data))))))))))) ("__NAME__" : String).data = false :=
    containsSub_append_false ("__NAME__" : String).data (tC07.data) (tC08.data ++ (tC09.data ++ (tC10.data ++ (tC11.data ++ (("__CONTACT_INFO__" : String).data ++ (tP3.data ++ (("__SUMMARY__" : String).data ++ (tP4.data ++ (("__SECTIONS__" : String).data ++ (tP5.data)))))))))) (tC08.data) (tC09.data ++ (tC10.data ++ (tC11.data ++ (("__CONTACT_INFO__" : String).data ++ (tP3.data ++ (("__SUMMARY__" : String).data ++ (tP4.data ++ (("__SECTIONS__" : String).data ++ (tP5.data)))))))))
      (by simp [List.append_assoc]) (by decide) (by decide) f8
  have f6 : containsSub (tC06.data ++ (tC07.data ++ (tC08.data ++ (tC09.data ++ (tC10.data ++ (tC11.data ++ (("__CONTACT_INFO__" : String).data ++ (tP3.data ++ (("__SUMMARY__" : String).data ++ (tP4.data ++ (("__SECTIONS__" : String).data ++ (tP5.data)))))))))))) ("__NAME__" : String).data = false :=
    containsSub_append_false ("__NAME__" : String).data (tC06.data) (tC07.data ++ (tC08.data ++ (tC09.data ++ (tC10.data ++ (tC11.data ++ (("__CONTACT_INFO__" : String).data ++ (tP3.data ++ (("__SUMMARY__" : String).data ++ (tP4.data ++ (("__SECTIONS__" : String).data ++ (tP5.data))))))))))) (tC07.data) (tC08.data ++ (tC09.data ++ (tC10.data ++ (tC11.data ++ (("__CONTACT_INFO__" : String).data ++ (tP3.data ++ (("__SUMMARY__" : String).data ++ (tP4.data ++ (("__SECTIONS__" : String).data ++ (tP5.data))))))))))
      (by simp [List.append_assoc]) (by decide) (by decide) f7
  have f5 : containsSub (tC05.data ++ (tC06.data ++ (tC07.data ++ (tC08.data ++ (tC09.data ++ (tC10.data ++ (tC11.data ++ (("__CONTACT_INFO__" : String).data ++ (tP3.data ++ (("__SUMMARY__" : String).data ++ (tP4.data ++ (("__SECTIONS__" : String).data ++ (tP5.data))))))))))))) ("__NAME__" : String).data = false :=
    containsSub_append_false ("__NAME__" : String).data (tC05.data) (tC06.data ++ (tC07.data ++ (tC08.data ++ (tC09.data ++ (tC10.data ++ (tC11.data ++ (("__CONTACT_INFO__" : String).data ++ (tP3.data ++ (("__SUMMARY__" : String).data ++ (tP4.data ++ (("__SECTIONS__" : String).data ++ (tP5.data)))))))))))) (tC06.data) (tC07.data ++ (tC08.data ++ (tC09.data ++ (tC10.data ++ (tC11.data ++ (("__CONTACT_INFO__" : String).data ++ (tP3.data ++ (("__SUMMARY__" : String).data ++ (tP4.data ++ (("__SECTIONS__" : String).data ++ (tP5.data)))))))))))
      (by simp [List.append_assoc]) (by decide) (by decide) f6
  have f4 : containsSub (tC04.data ++ (tC05.data ++ (tC06.data ++ (tC07.data ++ (tC08.data ++ (tC09.data ++ (tC10.data ++ (tC11.data ++ (("__CONTACT_INFO__" : String).data ++ (tP3.data ++ (("__SUMMARY__" : String).data ++ (tP4.data ++ (("__SECTIONS__" : String).data ++ (tP5.data)))))))))))))) ("__NAME__" : String).data = false :=
    containsSub_append_false ("__NAME__" : String).data (tC04.data) (tC05.data ++ (tC06.data ++ (tC07.data ++ (tC08.data ++ (tC09.data ++ (tC10.data ++ (tC11.data ++ (("__CONTACT_INFO__" : String).data ++ (tP3.data ++ (("__SUMMARY__" : String).data ++ (tP4.data ++ (("__SECTIONS__" : String).data ++ (tP5.data))))))))))))) (tC05.data) (tC06.data ++ (tC07.data ++ (tC08.data ++ (tC09.data ++ (tC10.data ++ (tC11.data ++ (("__CONTACT_INFO__" : String).data ++ (tP3.data ++ (("__SUMMARY__" : String).data ++ (tP4.data ++ (("__SECTIONS__" : String).data ++ (tP5.data))))))))))))
      (by simp [List.append_assoc]) (by decide) (by decide) f5
  have f3 : containsSub (tC03.data ++ (tC04.data ++ (tC05.data ++ (tC06.data ++ (tC07.data ++ (tC08.data ++ (tC09.data ++ (tC10.data ++ (tC11.data ++ (("__CONTACT_INFO__" : String).data ++ (tP3.data ++ (("__SUMMARY__" : String).data ++ (tP4.data ++ (("__SECTIONS__" : String).data ++ (tP5.data))))))))))))))) ("__NAME__" : String).data = false :=
    containsSub_append_false ("__NAME__" : String).data (tC03.data) (tC04.data ++ (tC05.data ++ (tC06.data ++ (tC07.data ++ (tC08.data ++ (tC09.data ++ (tC10.data ++ (tC11.data ++ (("__CONTACT_INFO__" : String).data ++ (tP3.data ++ (("__SUMMARY__" : String).data ++ (tP4.data ++ (("__SECTIONS__" : String).data ++ (tP5.data)))))))))))))) (tC04.data) (tC05.data ++ (tC06.data ++ (tC07.data ++ (tC08.data ++ (tC09.data ++ (tC10.data ++ (tC11.data ++ (("__CONTACT_INFO__" : String).data ++ (tP3.data ++ (("__SUMMARY__" : String).data ++ (tP4.data ++ (("__SECTIONS__" : String).data ++ (tP5.data)))))))))))))
      (by simp [List.append_assoc]) (by decide) (by decide) f4
  have f2 : containsSub (tC02.data ++ (tC03.data ++ (tC04.data ++ (tC05.data ++ (tC06.data ++ (tC07.data ++ (tC08.data ++ (tC09.data ++ (tC10.data ++ (tC11.data ++ (("__CONTACT_INFO__" : String).data ++ (tP3.data ++ (("__SUMMARY__" : String).data ++ (tP4.data ++ (("__SECTIONS__" : String).data ++ (tP5.data)))))))))))))))) ("__NAME__" : String).data = false :=
    containsSub_append_false ("__NAME__" : String).data (tC02.data) (tC03.data ++ (tC04.data ++ (tC05.data ++ (tC06.data ++ (tC07.data ++ (tC08.data ++ (tC09.data ++ (tC10.data ++ (tC11.data ++ (("__CONTACT_INFO__" : String).data ++ (tP3.data ++ (("__SUMMARY__" : String).data ++ (tP4.data ++ (("__SECTIONS__" : String).data ++ (tP5.data))))))))))))))) (tC03.data) (tC04.data ++ (tC05.data ++ (tC06.data ++ (tC07.data ++ (tC08.data ++ (tC09.data ++ (tC10.data ++ (tC11.data ++ (("__CONTACT_INFO__" : String).data ++ (tP3.data ++ (("__SUMMARY__" : String).data ++ (tP4.data ++ (("__SECTIONS__" : String).data ++ (tP5.data))))))))))))))
      (by simp [List.append_assoc]) (by decide) (by decide) f3
  have f1 : containsSub (tC01.data ++ (tC02.data ++ (tC03.data ++ (tC04.data ++ (tC05.data ++ (tC06.data ++ (tC07.data ++ (tC08.data ++ (tC09.data ++ (tC10.data ++ (tC11.data ++ (("__CONTACT_INFO__" : String).data ++ (tP3.data ++ (("__SUMMARY__" : String).data ++ (tP4.data ++ (("__SECTIONS__" : String).data ++ (tP5.data))))))))))))))))) ("__NAME__" : String).data = false :=
    containsSub_append_false ("__NAME__" : String).data (tC01.data) (tC02.data ++ (tC03.data ++ (tC04.data ++ (tC05.data ++ (tC06.data ++ (tC07.data ++ (tC08.data ++ (tC09.data ++ (tC10.data ++ (tC11.data ++ (("__CONTACT_INFO__" : String).data ++ (tP3.data ++ (("__SUMMARY__" : String).data ++ (tP4.data ++ (("__SECTIONS__" : String).data ++ (tP5.data)))))))))))))))) (tC02.data) (tC03.data ++ (tC04.data ++ (tC05.data ++ (tC06.data ++ (tC07.data ++ (tC08.data ++ (tC09.data ++ (tC10.data ++ (tC11.data ++ (("__CONTACT_INFO__" : String).data ++ (tP3.data ++ (("__SUMMARY__" : String).data ++ (tP4.data ++ (("__SECTIONS__" : String).data ++ (tP5.data)))))))))))))))
      (by simp [List.append_assoc]) (by decide) (by decide) f2
  exact f1

set_option maxRecDepth 10000 in
/-- First substitution of `render` on `exampleResume`: the name token is
replaced once, everything else survives verbatim. -/
theorem c1_pass1 : (pyReplace TEMPLATE "__NAME__" "Ada").data =
    tP1.data ++ (("Ada" : String).data ++ (tC01.data ++ (tC02.data ++ (tC03.data ++ (tC04.data ++ (tC05.data ++ (tC06.data ++ (tC07.data ++ (tC08.data ++ (tC09.data ++ (tC10.data ++ (tC11.data ++ (("__CONTACT_INFO__" : String).data ++ (tP3.data ++ (("__SUMMARY__" : String).data ++ (tP4.data ++ (("__SECTIONS__" : String).data ++ (tP5.data)))))))))))))))))) := by
  refine pyReplace_unique TEMPLATE "__NAME__" "Ada" (tP1.data) (tC01.data ++ (tC02.data ++ (tC03.data ++ (tC04.data ++ (tC05.data ++ (tC06.data ++ (tC07.data ++ (tC08.data ++ (tC09.data ++ (tC10.data ++ (tC11.data ++ (("__CONTACT_INFO__" : String).data ++ (tP3.data ++ (("__SUMMARY__" : String).data ++ (tP4.data ++ (("__SECTIONS__" : String).data ++ (tP5.data)))))))))))))))))
    (("__NAME_" : String).data) (("_" : String).data ++ (tC01.data ++ (tC02.data ++ (tC03.data ++ (tC04.data ++ (tC05.data ++ (tC06.data ++ (tC07.data ++ (tC08.data ++ (tC09.data ++ (tC10.data ++ (tC11.data ++ (("__CONTACT_INFO__" : String).data ++ (tP3.data ++ (("__SUMMARY__" : String).data ++ (tP4.data ++ (("__SECTIONS__" : String).data ++ (tP5.data)))))))))))))))))) ?_ ?_ (by decide) (by decide) c1_tail_nameFree
  · simp [TEMPLATE, String.data_append, List.append_assoc]
  · rw [(by decide : ("__NAME__" : String).data = ("__NAME_" : String).data ++ ("_" : String).data), List.append_assoc]

set_option maxRecDepth 10000 in
/-- Everything before the contact placeholder, with the name already
substituted, contains no occurrence of the contact token. -/
theorem c1_head_contactFree : containsSub (tP1.data ++ (("Ada" : String).data ++ (tC01.data ++ (tC02.data ++ (tC03.data ++ (tC04.data ++ (tC05.data ++ (tC06.data ++ (tC07.data ++ (tC08.data ++ (tC09.data ++ (tC10.data ++ (tC11.data ++ (("__CONTACT_INFO_" : String).data)))))))))))))) ("__CONTACT_INFO__" : String).data = false := by
  have f14 : containsSub (("__CONTACT_INFO_" : String).data) ("__CONTACT_INFO__" : String).data = false := by decide
  have f13 : containsSub (tC11.data ++ (("__CONTACT_INFO_" : String).data)) ("__CONTACT_INFO__" : String).data = false :=
    containsSub_append_false ("__CONTACT_INFO__" : String).data (tC11.data) (("__CONTACT_INFO_" : String).data) (("__CONTACT_INFO_" : String).data) (([] : List Char))
      (by simp [List.append_assoc]) (by decide) (by decide) f14
  have f12 : containsSub (tC10.data ++ (tC11.data ++ (("__CONTACT_INFO_" : String).data))) ("__CONTACT_INFO__" : String).data = false :=
    containsSub_append_false ("__CONTACT_INFO__" : String).data (tC10.data) (tC11.data ++ (("__CONTACT_INFO_" : String).data)) (tC11.data) (("__CONTACT_INFO_" : String).data)
      (by simp [List.append_assoc]) (by decide) (by decide) f13
  have f11 : containsSub (tC09.data ++ (tC10.data ++ (tC11.data ++ (("__CONTACT_INFO_" : String).data)))) ("__CONTACT_INFO__" : String).data = false :=
    containsSub_append_false ("__CONTACT_INFO__" : String).data (tC09.data) (tC10.data ++ (tC11.data ++ (("__CONTACT_INFO_" : String).data))) (tC10.data) (tC11.data ++ (("__CONTACT_INFO_" : String).data))
      (by simp [List.append_assoc]) (by decide) (by decide) f12
  have f10 : containsSub (tC08.data ++ (tC09.data ++ (tC10.data ++ (tC11.data ++ (("__CONTACT_INFO_" : String).data))))) ("__CONTACT_INFO__" : String).data = false :=
    containsSub_append_false ("__CONTACT_INFO__" : String).data (tC08.data) (tC09.data ++ (tC10.data ++ (tC11.data ++ (("__CONTACT_INFO_" : String).data)))) (tC09.data) (tC10.data ++ (tC11.data ++ (("__CONTACT_INFO_" : String).data)))
      (by simp [List.append_assoc]) (by decide) (by decide) f11
  have f9 : containsSub (tC07.data ++ (tC08.data ++ (tC09.data ++ (tC10.data ++ (tC11.data ++ (("__CONTACT_INFO_" : String).data)))))) ("__CONTACT_INFO__" : String).data = false :=
    containsSub_append_false ("__CONTACT_INFO__" : String).data (tC07.data) (tC08.data ++ (tC09.data ++ (tC10.data ++ (tC11.data ++ (("__CONTACT_INFO_" : String).data))))) (tC08.data) (tC09.data ++ (tC10.data ++ (tC11.data ++ (("__CONTACT_INFO_" : String).data))))
      (by simp [List.append_assoc]) (by decide) (by decide) f10
  have f8 : containsSub (tC06.data ++ (tC07.data ++ (tC08.data ++ (tC09.data ++ (tC10.data ++ (tC11.data ++ (("__CONTACT_INFO_" : String).data))))))) ("__CONTACT_INFO__" : String).data = false :=
    containsSub_append_false ("__CONTACT_INFO__" : String).data (tC06.data) (tC07.data ++ (tC08.data ++ (tC09.data ++ (tC10.data ++ (tC11.data ++ (("__CONTACT_INFO_" : String).data)))))) (tC07.data) (tC08.data ++ (tC09.data ++ (tC10.data ++ (tC11.data ++ (("__CONTACT_INFO_" : String).data)))))
      (by simp [List.append_assoc]) (by decide) (by decide) f9
  have f7 : containsSub (tC05.data ++ (tC06.data ++ (tC07.data ++ (tC08.data ++ (tC09.data ++ (tC10.data ++ (tC11.data ++ (("__CONTACT_INFO_" : String).data)))))))) ("__CONTACT_INFO__" : String).data = false :=
    containsSub_append_false ("__CONTACT_INFO__" : String).data (tC05.data) (tC06.data ++ (tC07.data ++ (tC08.data ++ (tC09.data ++ (tC10.data ++ (tC11.data ++ (("__CONTACT_INFO_" : String).data))))))) (tC06.data) (tC07.data ++ (tC08.data ++ (tC09.data ++ (tC10.data ++ (tC11.data ++ (("__CONTACT_INFO_" : String).data))))))
      (by simp [List.append_assoc]) (by decide) (by decide) f8
  have f6 : containsSub (tC04.data ++ (tC05.data ++ (tC06.data ++ (tC07.data ++ (tC08.data ++ (tC09.data ++ (tC10.data ++ (tC11.data ++ (("__CONTACT_INFO_" : String).data))))))))) ("__CONTACT_INFO__" : String).data = false :=
    containsSub_append_false ("__CONTACT_INFO__" : String).data (tC04.data) (tC05.data ++ (tC06.data ++ (tC07.data ++ (tC08.data ++ (tC09.data ++ (tC10.data ++ (tC11.data ++ (("__CONTACT_INFO_" : String).data)))))))) (tC05.data) (tC06.data ++ (tC07.data ++ (tC08.data ++ (tC09.data ++ (tC10.data ++ (tC11.data ++ (("__CONTACT_INFO_" : String).data)))))))
      (by simp [List.append_assoc]) (by decide) (by decide) f7
  have f5 : containsSub (tC03.data ++ (tC04.data ++ (tC05.data ++ (tC06.data ++ (tC07.data ++ (tC08.data ++ (tC09.data ++ (tC10.data ++ (tC11.data ++ (("__CONTACT_INFO_" : String).data)))))))))) ("__CONTACT_INFO__" : String).data = false :=
    containsSub_append_false ("__CONTACT_INFO__" : String).data (tC03.data) (tC04.data ++ (tC05.data ++ (tC06.data ++ (tC07.data ++ (tC08.data ++ (tC09.data ++ (tC10.data ++ (tC11.data ++ (("__CONTACT_INFO_" : String).data))))))))) (tC04.data) (tC05.data ++ (tC06.data ++ (tC07.data ++ (tC08.data ++ (tC09.data ++ (tC10.data ++ (tC11.data ++ (("__CONTACT_INFO_" : String).data))))))))
      (by simp [List.append_assoc]) (by decide) (by decide) f6
  have f4 : containsSub (tC02.data ++ (tC03.data ++ (tC04.data ++ (tC05.data ++ (tC06.data ++ (tC07.data ++ (tC08.data ++ (tC09.data ++ (tC10.data ++ (tC11.data ++ (("__CONTACT_INFO_" : String).data))))))))))) ("__CONTACT_INFO__" : String).data = false :=
    containsSub_append_false ("__CONTACT_INFO__" : String).data (tC02.data) (tC03.data ++ (tC04.data ++ (tC05.data ++ (tC06.data ++ (tC07.data ++ (tC08.data ++ (tC09.data ++ (tC10.data ++ (tC11.data ++ (("__CONTACT_INFO_" : String).data)))))))))) (tC03.data) (tC04.data ++ (tC05.data ++ (tC06.data ++ (tC07.data ++ (tC08.data ++ (tC09.data ++ (tC10.data ++ (tC11.data ++ (("__CONTACT_INFO_" : String).data)))))))))
      (by simp [List.append_assoc]) (by decide) (by decide) f5
  have f3 : containsSub (tC01.data ++ (tC02.data ++ (tC03.data ++ (tC04.data ++ (tC05.data ++ (tC06.data ++ (tC07.data ++ (tC08.data ++ (tC09.data ++ (tC10.data ++ (tC11.data ++ (("__CONTACT_INFO_" : String).data)))))))))))) ("__CONTACT_INFO__" : String).data = false :=
    containsSub_append_false ("__CONTACT_INFO__" : String).data (tC01.data) (tC02.data ++ (tC03.data ++ (tC04.data ++ (tC05.data ++ (tC06.data ++ (tC07.data ++ (tC08.data ++ (tC09.data ++ (tC10.data ++ (tC11.data ++ (("__CONTACT_INFO_" : String).data))))))))))) (tC02.data) (tC03.data ++ (tC04.data ++ (tC05.data ++ (tC06.data ++ (tC07.data ++ (tC08.data ++ (tC09.data ++ (tC10.data ++ (tC11.data ++ (("__CONTACT_INFO_" : String).data))))))))))
      (by simp [List.append_assoc]) (by decide) (by decide) f4
  have f2 : containsSub (("Ada" : String).data ++ (tC01.data ++ (tC02.data ++ (tC03.data ++ (tC04.data ++ (tC05.data ++ (tC06.data ++ (tC07.data ++ (tC08.data ++ (tC09.data ++ (tC10.data ++ (tC11.data ++ (("__CONTACT_INFO_" : String).data))))))))))))) ("__CONTACT_INFO__" : String).data = false :=
    containsSub_append_false ("__CONTACT_INFO__" : String).data (("Ada" : String).data) (tC01.data ++ (tC02.data ++ (tC03.data ++ (tC04.data ++ (tC05.data ++ (tC06.data ++ (tC07.data ++ (tC08.data ++ (tC09.data ++ (tC10.data ++ (tC11.data ++ (("__CONTACT_INFO_" : String).data)))))))))))) (tC01.data) (tC02.data ++ (tC03.data ++ (tC04.data ++ (tC05.data ++ (tC06.data ++ (tC07.data ++ (tC08.data ++ (tC09.data ++ (tC10.data ++ (tC11.data ++ (("__CONTACT_INFO_" : String).data)))))))))))
      (by simp [List.append_assoc]) (by decide) (by decide) f3
  have f1 : containsSub (tP1.data ++ (("Ada" : String).data ++ (tC01.data ++ (tC02.data ++ (tC03.data ++ (tC04.data ++ (tC05.data ++ (tC06.data ++ (tC07.data ++ (tC08.data ++ (tC09.data ++ (tC10.data ++ (tC11.data ++ (("__CONTACT_INFO_" : String).data)))))))))))))) ("__CONTACT_INFO__" : String).data = false :=
    containsSub_append_false ("__CONTACT_INFO__" : String).data (tP1.data) (("Ada" : String).data ++ (tC01.data ++ (tC02.data ++ (tC03.data ++ (tC04.data ++ (tC05.data ++ (tC06.data ++ (tC07.data ++ (tC08.data ++ (tC09.data ++ (tC10.data ++ (tC11.data ++ (("__CONTACT_INFO_" : String).data))))))))))))) (("Ada" : String).data ++ (tC01.data)) (tC02.data ++ (tC03.data ++ (tC04.data ++ (tC05.data ++ (tC06.data ++ (tC07.data ++ (tC08.data ++ (tC09.data ++ (tC10.data ++ (tC11.data ++ (("__CONTACT_INFO_" : String).data)))))))))))
      (by simp [List.append_assoc]) (by decide) (by decide) f2
  exact f1

set_option maxRecDepth 10000 in
/-- Second substitution of `render` on `exampleResume`: the contact token
is replaced once by the rendered contact fragment. -/
theorem c1_pass2 :
    (pyReplace (pyReplace TEMPLATE "__NAME__" "Ada") "__CONTACT_INFO__" "<h1 id=\"name\">Ada</h1>\n<br>\n").data =
    (tP1.data ++ (("Ada" : String).data ++ (tC01.data ++ (tC02.data ++ (tC03.data ++ (tC04.data ++ (tC05.data ++ (tC06.data ++ (tC07.data ++ (tC08.data ++ (tC09.data ++ (tC10.data ++ (tC11.data))))))))))))) ++ (("<h1 id=\"name\">Ada</h1>\n<br>\n" : String).data ++ (tP3.data ++ (("__SUMMARY__" : String).data ++ (tP4.data ++ (("__SECTIONS__" : String).data ++ (tP5.data)))))) := by
  refine pyReplace_unique _ "__CONTACT_INFO__" "<h1 id=\"name\">Ada</h1>\n<br>\n" (tP1.data ++ (("Ada" : String).data ++ (tC01.data ++ (tC02.data ++ (tC03.data ++ (tC04.data ++ (tC05.data ++ (tC06.data ++ (tC07.data ++ (tC08.data ++ (tC09.data ++ (tC10.data ++ (tC11.data))))))))))))) (tP3.data ++ (("__SUMMARY__" : String).data ++ (tP4.data ++ (("__SECTIONS__" : String).data ++ (tP5.data)))))
    (("__CONTACT_INFO_" : String).data) (("_" : String).data ++ (tP3.data ++ (("__SUMMARY__" : String).data ++ (tP4.data ++ (("__SECTIONS__" : String).data ++ (tP5.data)))))) ?_ ?_ (by decide)
    (by simpa [List.append_assoc] using c1_head_contactFree) (by decide)
  · rw [c1_pass1]; simp [List.append_assoc]
  · rw [(by decide : ("__CONTACT_INFO__" : String).data = ("__CONTACT_INFO_" : String).data ++ ("_" : String).data), List.append_assoc]

set_option maxRecDepth 10000 in
/-- Everything before the sections placeholder, after the first two
substitutions, contains no occurrence of the sections token; in
particular the summary placeholder, which is part of it, does not
interfere. -/
theorem c1_head_sectionsFree : containsSub (tP1.data ++ (("Ada" : String).data ++ (tC01.data ++ (tC02.data ++ (tC03.data ++ (tC04.data ++ (tC05.data ++ (tC06.data ++ (tC07.data ++ (tC08.data ++ (tC09.data ++ (tC10.data ++ (tC11.data ++ (("<h1 id=\"name\">Ada</h1>\n<br>\n" : String).data ++ (tP3.data ++ (("__SUMMARY__" : String).data ++ (tP4.data ++ (("__SECTIONS_" : String).data)))))))))))))))))) ("__SECTIONS__" : String).data = false := by
  have f18 : containsSub (("__SECTIONS_" : String).data) ("__SECTIONS__" : String).data = false := by decide
  have f17 : containsSub (tP4.data ++ (("__SECTIONS_" : String).data)) ("__SECTIONS__" : String).data = false :=
    containsSub_append_false ("__SECTIONS__" : String).data (tP4.data) (("__SECTIONS_" : String).data) (("__SECTIONS_" : String).data) (([] : List Char))
      (by simp [List.append_assoc]) (by decide) (by decide) f18
  have f16 : containsSub (("__SUMMARY__" : String).data ++ (tP4.data ++ (("__SECTIONS_" : String).data))) ("__SECTIONS__" : String).data = false :=
    containsSub_append_false ("__SECTIONS__" : String).data (("__SUMMARY__" : String).data) (tP4.data ++ (("__SECTIONS_" : String).data)) (tP4.data) (("__SECTIONS_" : String).data)
      (by simp [List.append_assoc]) (by decide) (by decide) f17
  have f15 : containsSub (tP3.data ++ (("__SUMMARY__" : String).data ++ (tP4.data ++ (("__SECTIONS_" : String).data)))) ("__SECTIONS__" : String).data = false :=
    containsSub_append_false ("__SECTIONS__" : String).data (tP3.data) (("__SUMMARY__" : String).data ++ (tP4.data ++ (("__SECTIONS_" : String).data))) (("__SUMMARY__" : String).data) (tP4.data ++ (("__SECTIONS_" : String).data))
      (by simp [List.append_assoc]) (by decide) (by decide) f16
  have f14 : containsSub (("<h1 id=\"name\">Ada</h1>\n<br>\n" : String).data ++ (tP3.data ++ (("__SUMMARY__" : String).data ++ (tP4.data ++ (("__SECTIONS_" : String).data))))) ("__SECTIONS__" : String).data = false :=
    containsSub_append_false ("__SECTIONS__" : String).data (("<h1 id=\"name\">Ada</h1>\n<br>\n" : String).data) (tP3.data ++ (("__SUMMARY__" : String).data ++ (tP4.data ++ (("__SECTIONS_" : String).data)))) (tP3.data) (("__SUMMARY__" : String).data ++ (tP4.data ++ (("__SECTIONS_" : String).data)))
      (by simp [List.append_assoc]) (by decide) (by decide) f15
  have f13 : containsSub (tC11.data ++ (("<h1 id=\"name\">Ada</h1>\n<br>\n" : String).data ++ (tP3.data ++ (("__SUMMARY__" : String).data ++ (tP4.data ++ (("__SECTIONS_" : String).data)))))) ("__SECTIONS__" : String).data = false :=
    containsSub_append_false ("__SECTIONS__" : String).data (tC11.data) (("<h1 id=\"name\">Ada</h1>\n<br>\n" : String).data ++ (tP3.data ++ (("__SUMMARY__" : String).data ++ (tP4.data ++ (("__SECTIONS_" : String).data))))) (("<h1 id=\"name\">Ada</h1>\n<br>\n" : String).data) (tP3.data ++ (("__SUMMARY__" : String).data ++ (tP4.data ++ (("__SECTIONS_" : String).data))))
      (by simp [List.append_assoc]) (by decide) (by decide) f14
  have f12 : containsSub (tC10.data ++ (tC11.data ++ (("<h1 id=\"name\">Ada</h1>\n<br>\n" : String).data ++ (tP3.data ++ (("__SUMMARY__" : String).data ++ (tP4.data ++ (("__SECTIONS_" : String).data))))))) ("__SECTIONS__" : String).data = false :=
    containsSub_append_false ("__SECTIONS__" : String).data (tC10.data) (tC11.data ++ (("<h1 id=\"name\">Ada</h1>\n<br>\n" : String).data ++ (tP3.data ++ (("__SUMMARY__" : String).data ++ (tP4.data ++ (("__SECTIONS_" : String).data)))))) (tC11.data) (("<h1 id=\"name\">Ada</h1>\n<br>\n" : String).data ++ (tP3.data ++ (("__SUMMARY__" : String).data ++ (tP4.data ++ (("__SECTIONS_" : String).data)))))
      (by simp [List.append_assoc]) (by decide) (by decide) f13
  have f11 : containsSub (tC09.data ++ (tC10.data ++ (tC11.data ++ (("<h1 id=\"name\">Ada</h1>\n<br>\n" : String).data ++ (tP3.data ++ (("__SUMMARY__" : String).data ++ (tP4.data ++ (("__SECTIONS_" : String).data)))))))) ("__SECTIONS__" : String).data = false :=
    containsSub_append_false ("__SECTIONS__" : String).data (tC09.data) (tC10.data ++ (tC11.data ++ (("<h1 id=\"name\">Ada</h1>\n<br>\n" : String).data ++ (tP3.data ++ (("__SUMMARY__" : String).data ++ (tP4.data ++ (("__SECTIONS_" : String).data))))))) (tC10.data) (tC11.data ++ (("<h1 id=\"name\">Ada</h1>\n<br>\n" : String).data ++ (tP3.data ++ (("__SUMMARY__" : String).data ++ (tP4.data ++ (("__SECTIONS_" : String).data))))))
      (by simp [List.append_assoc]) (by decide) (by decide) f12
  have f10 : containsSub (tC08.data ++ (tC09.data ++ (tC10.data ++ (tC11.data ++ (("<h1 id=\"name\">Ada</h1>\n<br>\n" : String).data ++ (tP3.data ++ (("__SUMMARY__" : String).data ++ (tP4.data ++ (("__SECTIONS_" : String).data))))))))) ("__SECTIONS__" : String).data = false :=
    containsSub_append_false ("__SECTIONS__" : String).data (tC08.data) (tC09.data ++ (tC10.data ++ (tC11.data ++ (("<h1 id=\"name\">Ada</h1>\n<br>\n" : String).data ++ (tP3.data ++ (("__SUMMARY__" : String).data ++ (tP4.data ++ (("__SECTIONS_" : String).data)))))))) (tC09.data) (tC10.data ++ (tC11.data ++ (("<h1 id=\"name\">Ada</h1>\n<br>\n" : String).data ++ (tP3.data ++ (("__SUMMARY__" : String).data ++ (tP4.data ++ (("__SECTIONS_" : String).data)))))))
      (by simp [List.append_assoc]) (by decide) (by decide) f11
  have f9 : containsSub (tC07.data ++ (tC08.data ++ (tC09.data ++ (tC10.data ++ (tC11.data ++ (("<h1 id=\"name\">Ada</h1>\n<br>\n" : String).data ++ (tP3.data ++ (("__SUMMARY__" : String).data ++ (tP4.data ++ (("__SECTIONS_" : String).data)))))))))) ("__SECTIONS__" : String).data = false :=
    containsSub_append_false ("__SECTIONS__" : String).data (tC07.data) (tC08.data ++ (tC09.data ++ (tC10.data ++ (tC11.data ++ (("<h1 id=\"name\">Ada</h1>\n<br>\n" : String).data ++ (tP3.data ++ (("__SUMMARY__" : String).data ++ (tP4.data ++ (("__SECTIONS_" : String).data))))))))) (tC08.data) (tC09.data ++ (tC10.data ++ (tC11.data ++ (("<h1 id=\"name\">Ada</h1>\n<br>\n" : String).data ++ (tP3.data ++ (("__SUMMARY__" : String).data ++ (tP4.data ++ (("__SECTIONS_" : String).data))))))))
      (by simp [List.append_assoc]) (by decide) (by decide) f10
  have f8 : containsSub (tC06.data ++ (tC07.data ++ (tC08.data ++ (tC09.data ++ (tC10.data ++ (tC11.data ++ (("<h1 id=\"name\">Ada</h1>\n<br>\n" : String).data ++ (tP3.data ++ (("__SUMMARY__" : String).data ++ (tP4.data ++ (("__SECTIONS_" : String).data))))))))))) ("__SECTIONS__" : String).data = false :=
    containsSub_append_false ("__SECTIONS__" : String).data (tC06.data) (tC07.data ++ (tC08.data ++ (tC09.data ++ (tC10.data ++ (tC11.data ++ (("<h1 id=\"name\">Ada</h1>\n<br>\n" : String).data ++ (tP3.data ++ (("__SUMMARY__" : String).data ++ (tP4.data ++ (("__SECTIONS_" : String).data)))))))))) (tC07.data) (tC08.data ++ (tC09.data ++ (tC10.data ++ (tC11.data ++ (("<h1 id=\"name\">Ada</h1>\n<br>\n" : String).data ++ (tP3.data ++ (("__SUMMARY__" : String).data ++ (tP4.data ++ (("__SECTIONS_" : String).data)))))))))
      (by simp [List.append_assoc]) (by decide) (by decide) f9
  have f7 : containsSub (tC05.data ++ (tC06.data ++ (tC07.data ++ (tC08.data ++ (tC09.data ++ (tC10.data ++ (tC11.data ++ (("<h1 id=\"name\">Ada</h1>\n<br>\n" : String).data ++ (tP3.data ++ (("__SUMMARY__" : String).data ++ (tP4.data ++ (("__SECTIONS_" : String).data)))))))))))) ("__SECTIONS__" : String).data = false :=
    containsSub_append_false ("__SECTIONS__" : String).data (tC05.data) (tC06.data ++ (tC07.data ++ (tC08.data ++ (tC09.data ++ (tC10.data ++ (tC11.data ++ (("<h1 id=\"name\">Ada</h1>\n<br>\n" : String).data ++ (tP3.data ++ (("__SUMMARY__" : String).data ++ (tP4.data ++ (("__SECTIONS_" : String).data))))))))))) (tC06.data) (tC07.data ++ (tC08.data ++ (tC09.data ++ (tC10.data ++ (tC11.data ++ (("<h1 id=\"name\">Ada</h1>\n<br>\n" : String).data ++ (tP3.data ++ (("__SUMMARY__" : String).data ++ (tP4.data ++ (("__SECTIONS_" : String).data))))))))))
      (by simp [List.append_assoc]) (by decide) (by decide) f8
  have f6 : containsSub (tC04.data ++ (tC05.data ++ (tC06.data ++ (tC07.data ++ (tC08.data ++ (tC09.data ++ (tC10.data ++ (tC11.data ++ (("<h1 id=\"name\">Ada</h1>\n<br>\n" : String).data ++ (tP3.data ++ (("__SUMMARY__" : String).data ++ (tP4.data ++ (("__SECTIONS_" : String).data))))))))))))) ("__SECTIONS__" : String).data = false :=
    containsSub_append_false ("__SECTIONS__" : String).data (tC04.data) (tC05.data ++ (tC06.data ++ (tC07.data ++ (tC08.data ++ (tC09.data ++ (tC10.data ++ (tC11.data ++ (("<h1 id=\"name\">Ada</h1>\n<br>\n" : String).data ++ (tP3.data ++ (("__SUMMARY__" : String).data ++ (tP4.data ++ (("__SECTIONS_" : String).data)))))))))))) (tC05.data) (tC06.data ++ (tC07.data ++ (tC08.data ++ (tC09.data ++ (tC10.data ++ (tC11.data ++ (("<h1 id=\"name\">Ada</h1>\n<br>\n" : String).data ++ (tP3.data ++ (("__SUMMARY__" : String).data ++ (tP4.data ++ (("__SECTIONS_" : String).data)))))))))))
      (by simp [List.append_assoc]) (by decide) (by decide) f7
  have f5 : containsSub (tC03.data ++ (tC04.data ++ (tC05.data ++ (tC06.data ++ (tC07.data ++ (tC08.data ++ (tC09.data ++ (tC10.data ++ (tC11.data ++ (("<h1 id=\"name\">Ada</h1>\n<br>\n" : String).data ++ (tP3.data ++ (("__SUMMARY__" : String).data ++ (tP4.data ++ (("__SECTIONS_" : String).data)))))))))))))) ("__SECTIONS__" : String).data = false :=
    containsSub_append_false ("__SECTIONS__" : String).data (tC03.data) (tC04.data ++ (tC05.data ++ (tC06.data ++ (tC07.data ++ (tC08.data ++ (tC09.data ++ (tC10.data ++ (tC11.data ++ (("<h1 id=\"name\">Ada</h1>\n<br>\n" : String).data ++ (tP3.data ++ (("__SUMMARY__" : String).data ++ (tP4.data ++ (("__SECTIONS_" : String).data))))))))))))) (tC04.data) (tC05.data ++ (tC06.data ++ (tC07.data ++ (tC08.data ++ (tC09.data ++ (tC10.data ++ (tC11.data ++ (("<h1 id=\"name\">Ada</h1>\n<br>\n" : String).data ++ (tP3.data ++ (("__SUMMARY__" : String).data ++ (tP4.data ++ (("__SECTIONS_" : String).data))))))))))))
      (by simp [List.append_assoc]) (by decide) (by decide) f6
  have f4 : containsSub (tC02.data ++ (tC03.data ++ (tC04.data ++ (tC05.data ++ (tC06.data ++ (tC07.data ++ (tC08.data ++ (tC09.data ++ (tC10.data ++ (tC11.data ++ (("<h1 id=\"name\">Ada</h1>\n<br>\n" : String).data ++ (tP3.data ++ (("__SUMMARY__" : String).data ++ (tP4.data ++ (("__SECTIONS_" : String).data))))))))))))))) ("__SECTIONS__" : String).data = false :=
    containsSub_append_false ("__SECTIONS__" : String).data (tC02.data) (tC03.data ++ (tC04.data ++ (tC05.data ++ (tC06.data ++ (tC07.data ++ (tC08.data ++ (tC09.data ++ (tC10.data ++ (tC11.data ++ (("<h1 id=\"name\">Ada</h1>\n<br>\n" : String).data ++ (tP3.data ++ (("__SUMMARY__" : String).data ++ (tP4.data ++ (("__SECTIONS_" : String).data)))))))))))))) (tC03.data) (tC04.data ++ (tC05.data ++ (tC06.data ++ (tC07.data ++ (tC08.data ++ (tC09.data ++ (tC10.data ++ (tC11.data ++ (("<h1 id=\"name\">Ada</h1>\n<br>\n" : String).data ++ (tP3.data ++ (("__SUMMARY__" : String).data ++ (tP4.data ++ (("__SECTIONS_" : String).data)))))))))))))
      (by simp [List.append_assoc]) (by decide) (by decide) f5
  have f3 : containsSub (tC01.data ++ (tC02.data ++ (tC03.data ++ (tC04.data ++ (tC05.data ++ (tC06.data ++ (tC07.data ++ (tC08.data ++ (tC09.data ++ (tC10.data ++ (tC11.data ++ (("<h1 id=\"name\">Ada</h1>\n<br>\n" : String).data ++ (tP3.data ++ (("__SUMMARY__" : String).data ++ (tP4.data ++ (("__SECTIONS_" : String).data)))))))))))))))) ("__SECTIONS__" : String).data = false :=
    containsSub_append_false ("__SECTIONS__" : String).data (tC01.data) (tC02.data ++ (tC03.data ++ (tC04.data ++ (tC05.data ++ (tC06.data ++ (tC07.data ++ (tC08.data ++ (tC09.data ++ (tC10.data ++ (tC11.data ++ (("<h1 id=\"name\">Ada</h1>\n<br>\n" : String).data ++ (tP3.data ++ (("__SUMMARY__" : String).data ++ (tP4.data ++ (("__SECTIONS_" : String).data))))))))))))))) (tC02.data) (tC03.data ++ (tC04.data ++ (tC05.data ++ (tC06.data ++ (tC07.data ++ (tC08.data ++ (tC09.data ++ (tC10.data ++ (tC11.data ++ (("<h1 id=\"name\">Ada</h1>\n<br>\n" : String).data ++ (tP3.data ++ (("__SUMMARY__" : String).data ++ (tP4.data ++ (("__SECTIONS_" : String).data))))))))))))))
      (by simp [List.append_assoc]) (by decide) (by decide) f4
  have f2 : containsSub (("Ada" : String).data ++ (tC01.data ++ (tC02.data ++ (tC03.data ++ (tC04.data ++ (tC05.data ++ (tC06.data ++ (tC07.data ++ (tC08.data ++ (tC09.data ++ (tC10.data ++ (tC11.data ++ (("<h1 id=\"name\">Ada</h1>\n<br>\n" : String).data ++ (tP3.data ++ (("__SUMMARY__" : String).data ++ (tP4.data ++ (("__SECTIONS_" : String).data))))))))))))))))) ("__SECTIONS__" : String).data = false :=
    containsSub_append_false ("__SECTIONS__" : String).data (("Ada" : String).data) (tC01.data ++ (tC02.data ++ (tC03.data ++ (tC04.data ++ (tC05.data ++ (tC06.data ++ (tC07.data ++ (tC08.data ++ (tC09.data ++ (tC10.data ++ (tC11.data ++ (("<h1 id=\"name\">Ada</h1>\n<br>\n" : String).data ++ (tP3.data ++ (("__SUMMARY__" : String).data ++ (tP4.data ++ (("__SECTIONS_" : String).data)))))))))))))))) (tC01.data) (tC02.data ++ (tC03.data ++ (tC04.data ++ (tC05.data ++ (tC06.data ++ (tC07.data ++ (tC08.data ++ (tC09.data ++ (tC10.data ++ (tC11.data ++ (("<h1 id=\"name\">Ada</h1>\n<br>\n" : String).data ++ (tP3.data ++ (("__SUMMARY__" : String).data ++ (tP4.data ++ (("__SECTIONS_" : String).data)))))))))))))))
      (by simp [List.append_assoc]) (by decide) (by decide) f3
  have f1 : containsSub (tP1.data ++ (("Ada" : String).data ++ (tC01.data ++ (tC02.data ++ (tC03.data ++ (tC04.data ++ (tC05.data ++ (tC06.data ++ (tC07.data ++ (tC08.data ++ (tC09.data ++ (tC10.data ++ (tC11.data ++ (("<h1 id=\"name\">Ada</h1>\n<br>\n" : String).data ++ (tP3.data ++ (("__SUMMARY__" : String).data ++ (tP4.data ++ (("__SECTIONS_" : String).data)))))))))))))))))) ("__SECTIONS__" : String).data = false :=
    containsSub_append_false ("__SECTIONS__" : String).data (tP1.data) (("Ada" : String).data ++ (tC01.data ++ (tC02.data ++ (tC03.data ++ (tC04.data ++ (tC05.data ++ (tC06.data ++ (tC07.data ++ (tC08.data ++ (tC09.data ++ (tC10.data ++ (tC11.data ++ (("<h1 id=\"name\">Ada</h1>\n<br>\n" : String).data ++ (tP3.data ++ (("__SUMMARY__" : String).data ++ (tP4.data ++ (("__SECTIONS_" : String).data))))))))))))))))) (("Ada" : String).data ++ (tC01.data)) (tC02.data ++ (tC03.data ++ (tC04.data ++ (tC05.data ++ (tC06.data ++ (tC07.data ++ (tC08.data ++ (tC09.data ++ (tC10.data ++ (tC11.data ++ (("<h1 id=\"name\">Ada</h1>\n<br>\n" : String).data ++ (tP3.data ++ (("__SUMMARY__" : String).data ++ (tP4.data ++ (("__SECTIONS_" : String).data)))))))))))))))
      (by simp [List.append_assoc]) (by decide) (by decide) f2
  exact f1

set_option maxRecDepth 10000 in
/-- Third substitution of `render` on `exampleResume`: the sections token
is replaced once by the (empty) rendered sections fragment. -/
theorem c1_pass3 :
    (pyReplace (pyReplace (pyReplace TEMPLATE "__NAME__" "Ada") "__CONTACT_INFO__" "<h1 id=\"name\">Ada</h1>\n<br>\n") "__SECTIONS__" "").data =
    (tP1.data ++ (("Ada" : String).data ++ (tC01.data ++ (tC02.data ++ (tC03.data ++ (tC04.data ++ (tC05.data ++ (tC06.data ++ (tC07.data ++ (tC08.data ++ (tC09.data ++ (tC10.data ++ (tC11.data ++ (("<h1 id=\"name\">Ada</h1>\n<br>\n" : String).data ++ (tP3.data ++ (("__SUMMARY__" : String).data ++ (tP4.data))))))))))))))))) ++ (("" : String).data ++ tP5.data) := by
  refine pyReplace_unique _ "__SECTIONS__" "" (tP1.data ++ (("Ada" : String).data ++ (tC01.data ++ (tC02.data ++ (tC03.data ++ (tC04.data ++ (tC05.data ++ (tC06.data ++ (tC07.data ++ (tC08.data ++ (tC09.data ++ (tC10.data ++ (tC11.data ++ (("<h1 id=\"name\">Ada</h1>\n<br>\n" : String).data ++ (tP3.data ++ (("__SUMMARY__" : String).data ++ (tP4.data))))))))))))))))) (tP5.data)
    (("__SECTIONS_" : String).data) (("_" : String).data ++ tP5.data) ?_ ?_ (by decide)
    (by simpa [List.append_assoc] using c1_head_sectionsFree) (by decide)
  · rw [c1_pass2]; simp [List.append_assoc]
  · rw [(by decide : ("__SECTIONS__" : String).data = ("__SECTIONS_" : String).data ++ ("_" : String).data), List.append_assoc]

/-- C1: the spec says render substitutes all four placeholders and no
placeholder token remains; on the code, the summary placeholder is never
substituted and survives into the output of `render`, even though the
example resume has a summary set. -/
theorem c1_render_keeps_summary_placeholder :
    ("__SUMMARY__" : String).data <:+: (render exampleResume).data := by
  have hr : render exampleResume =
      pyReplace (pyReplace (pyReplace TEMPLATE "__NAME__" "Ada") "__CONTACT_INFO__" "<h1 id=\"name\">Ada</h1>\n<br>\n") "__SECTIONS__" "" := by
    show pyReplace (pyReplace (pyReplace TEMPLATE "__NAME__"
        (pyStr exampleResume.contact_info.name)) "__CONTACT_INFO__"
        (render_contact_info exampleResume)) "__SECTIONS__"
        (render_sections exampleResume) = _
    rfl
  refine ⟨(tP1.data ++ (("Ada" : String).data ++ (tC01.data ++ (tC02.data ++ (tC03.data ++ (tC04.data ++ (tC05.data ++ (tC06.data ++ (tC07.data ++ (tC08.data ++ (tC09.data ++ (tC10.data ++ (tC11.data ++ (("<h1 id=\"name\">Ada</h1>\n<br>\n" : String).data ++ (tP3.data))))))))))))))), tP4.data ++ tP5.data, ?_⟩
  rw [hr, c1_pass3]
  simp [List.append_assoc]

theorem foldl_append_strConcatMap {α : Type} (f : α → String) (l : List α) (init : String) :
    l.foldl (fun acc x => acc ++ f x) init = init ++ strConcatMap f l := by
  induction l generalizing init with
  | nil => simp [strConcatMap, String.append_empty]
  | cons x xs ih => simp [List.foldl_cons, ih, strConcatMap, String.append_assoc]

theorem foldl_li (ds : List StrLike) (init : String) :
    ds.foldl (fun acc d => acc ++ "<li>" ++ pyStr d ++ "</li>\n") init
      = init ++ strConcatMap (fun d => "<li>" ++ pyStr d ++ "</li>\n") ds := by
  induction ds generalizing init with
  | nil => simp only [List.foldl_nil, strConcatMap, String.append_empty]
  | cons d ds ih =>
    rw [List.foldl_cons, ih]
    simp only [strConcatMap, String.append_assoc]

theorem bulletedFold_eq (items : List StrLike) (acc : String) :
    bulletedFold items acc
      = acc ++ strConcatMap (fun i => "<li><p>" ++ pyStr i ++ "</p></li>\n") items := by
  induction items generalizing acc with
  | nil => simp only [bulletedFold, strConcatMap, String.append_empty]
  | cons i is ih =>
    rw [bulletedFold, ih]
    simp only [strConcatMap, String.append_assoc]

theorem joinMapPyStr_eq (l : List StrLike) : joinMapPyStr l = strConcatMap pyStr l := by
  induction l with
  | nil => rfl
  | cons i is ih => simp [joinMapPyStr, strConcatMap, ih]

theorem sectionEntryStep_eq (acc : String) (e : SectionEntry) :
    sectionEntryStep acc e = acc ++ entryFrag e := by
  simp only [sectionEntryStep, entryFrag, entryTitleFrag, entryCaptionFrag,
    entryLocationFrag, entryDatesFrag, entryDescriptionFrag]
  split_ifs <;> simp only [String.append_assoc, String.append_empty]

theorem foldl_entryStep (entries : List SectionEntry) (init : String) :
    entries.foldl sectionEntryStep init = init ++ strConcatMap entryFrag entries := by
  induction entries generalizing init with
  | nil => simp only [List.foldl_nil, strConcatMap, String.append_empty]
  | cons e es ih =>
    rw [List.foldl_cons, sectionEntryStep_eq, ih]
    simp only [strConcatMap, String.append_assoc]

theorem render_section_decomp (sec : Section) :
    render_section sec = "<div class=\x27container\x27>\n" ++ "<section>\n" ++
      sectionTitleFrag sec.title ++ strConcatMap entryFrag sec.entries ++
      "</section>\n" ++ "</div>\n" := by
  simp only [render_section, sectionTitleFrag, foldl_entryStep]
  split_ifs <;> simp only [String.append_assoc, String.append_empty, String.empty_append]

theorem render_sections_decomp (r : Resume) :
    render_sections r = strConcatMap render_section r.sections := by
  simp only [render_sections]
  rw [foldl_append_strConcatMap render_section r.sections ""]
  exact String.empty_append _

theorem render_contact_info_decomp (r : Resume) :
    render_contact_info r = contactH1 r.contact_info ++
      contactDetailsBlock r.contact_info ++ contactEnding r.contact_info.tag_line := by
  simp only [render_contact_info, contactH1, contactDetailsBlock, contactEnding, taglinePara,
    foldl_li]
  split_ifs <;> simp only [String.append_assoc, String.append_empty, String.empty_append]


theorem append_ne_empty_left (a b : String) (ha : a.data ≠ []) : a ++ b ≠ "" := by
  intro h
  have h1 := congrArg String.data h
  rw [String.data_append] at h1
  have h2 : a.data ++ b.data = [] := h1
  rcases List.append_eq_nil.mp h2 with ⟨h3, _⟩
  exact ha h3

/-- C6: rendering is deterministic and pure: the embedded renderer and
text-node renderers are total functions of their input (the source
mutates no state while rendering, only local accumulators), so a second
call on the same resume gives the identical string. -/
theorem c6_render_deterministic (r : Resume) (t : StrLike) :
    render r = render r ∧ pyStr t = pyStr t :=
  ⟨rfl, rfl⟩

/-- C7: a bulleted list renders the opening tag, one list item per
element in input order (raw strings passing through), and the closing
tag; the empty list gives exactly the opening and closing tags. -/
theorem c7_bulleted_list (items : List StrLike) (s : String) :
    pyStr (.bulleted items) =
      "<ul>\n" ++ strConcatMap (fun i => "<li><p>" ++ pyStr i ++ "</p></li>\n") items ++ "</ul>\n"
    ∧ pyStr (.bulleted []) = "<ul>\n</ul>\n"
    ∧ pyStr (.str s) = s := by
  refine ⟨?_, rfl, rfl⟩
  show bulletedFold items "<ul>\n" ++ "</ul>\n" = _
  rw [bulletedFold_eq]

/-- C8: a hyperlink without the icon flag renders the plain anchor; with
the flag it additionally carries the open-link class. -/
theorem c8_hyperlink (t u : String) :
    pyStr (.link t u false) = "<a target=\"_blank\" href=\"" ++ u ++ "\">" ++ t ++ "</a>"
    ∧ pyStr (.link t u true) =
      "<a target=\"_blank\" class=\"open-link\" href=\"" ++ u ++ "\">" ++ t ++ "</a>" :=
  ⟨rfl, rfl⟩

/-- C9: concatenation renders each child in order joined with no
separator; on the concrete list it gives the bold fragment, a literal
space, and the italic fragment with nothing in between. -/
theorem c9_concat (args : List StrLike) :
    pyStr (.concat args) = strConcatMap pyStr args
    ∧ pyStr (.concat [.bold "a", .str " ", .italics "b"]) =
      "<strong>a</strong>" ++ " " ++ "<p class=\"des\">b</p>" := by
  refine ⟨?_, rfl⟩
  show joinMapPyStr args = _
  rw [joinMapPyStr_eq]

/-- C3: `render_summary` returns the empty string exactly when the
resume has no summary; with a summary set it returns the non-empty fixed
container/section skeleton holding the rendered title and the rendered
description. -/
theorem c3_render_summary (r : Resume) :
    (render_summary r = "" ↔ r.summary = none)
    ∧ (∀ sm : Summary, r.summary = some sm →
        render_summary r ≠ "" ∧
        render_summary r = "<div class=\x27container\x27>\n" ++ "<section>\n" ++
          "<h2>" ++ pyShow sm.title ++ "</h2>\n" ++ "<div class=\"entry\">\n" ++
          "<p>\n" ++ pyShow sm.description ++ "</p>\n" ++ "</div>" ++ "</section>\n" ++
          "</div>\n") := by
  have hsome : ∀ sm : Summary, r.summary = some sm →
      render_summary r = "<div class=\x27container\x27>\n" ++ "<section>\n" ++
        "<h2>" ++ pyShow sm.title ++ "</h2>\n" ++ "<div class=\"entry\">\n" ++
        "<p>\n" ++ pyShow sm.description ++ "</p>\n" ++ "</div>" ++ "</section>\n" ++
        "</div>\n" := by
    intro sm h
    simp only [render_summary, h]
  have hne : ∀ sm : Summary, render_summary r = "<div class=\x27container\x27>\n" ++
      "<section>\n" ++ "<h2>" ++ pyShow sm.title ++ "</h2>\n" ++ "<div class=\"entry\">\n" ++
      "<p>\n" ++ pyShow sm.description ++ "</p>\n" ++ "</div>" ++ "</section>\n" ++
      "</div>\n" → render_summary r ≠ "" := by
    intro sm he
    rw [he]
    have hblock : ("<div class=\x27container\x27>\n" : String) ++ ("<section>\n" ++
        ("<h2>" ++ (pyShow sm.title ++ ("</h2>\n" ++ ("<div class=\"entry\">\n" ++
        ("<p>\n" ++ (pyShow sm.description ++ ("</p>\n" ++ ("</div>" ++ ("</section>\n" ++
        "</div>\n")))))))))) ≠ "" := by
      apply append_ne_empty_left
      decide
    intro hh
    apply hblock
    rw [← hh]
    simp only [String.append_assoc]
  constructor
  · constructor
    · intro h
      cases hs : r.summary with
      | none => rfl
      | some sm => exact absurd h (hne sm (hsome sm hs))
    · intro h
      simp [render_summary, h]
  · intro sm h
    exact ⟨hne sm (hsome sm h), hsome sm h⟩

/-- C3 witness: at a resume with a summary set the fragment is
non-empty. -/
theorem c3_witness :
    render_summary ⟨⟨.str "N", none, none⟩, [], some ⟨some (.str "T"), some (.str "D")⟩⟩ ≠ "" :=
  ((c3_render_summary _).2 ⟨some (.str "T"), some (.str "D")⟩ rfl).1

/-- C2 counterexample: on a resume whose summary has an absent title and
absent description, `render_summary` still emits the title and
description slots, interpolating the placeholder text "None" instead of
suppressing the fragments. -/
theorem c2_counterexample :
    render_summary ⟨⟨.str "N", none, none⟩, [], some ⟨none, none⟩⟩ =
      "<div class=\x27container\x27>\n<section>\n<h2>None</h2>\n<div class=\"entry\">\n<p>\nNone</p>\n</div></section>\n</div>\n" := by
  decide

/-- C2 (amended): absent optional fields of a section entry suppress
their fragments entirely, an absent details list suppresses the contact
list block, and an absent tagline produces the fixed line-break
fallback; however `render_summary` interpolates `Summary.title` and
`Summary.description` unconditionally, so an absent one renders the text
"None" inside its fixed tags instead of nothing. -/
theorem c2_amended :
    (∀ sec : Section, render_section sec = "<div class=\x27container\x27>\n" ++ "<section>\n" ++
      sectionTitleFrag sec.title ++ strConcatMap entryFrag sec.entries ++ "</section>\n" ++
      "</div>\n")
    ∧ (∀ e : SectionEntry, e.title = none → entryTitleFrag e = "")
    ∧ (∀ e : SectionEntry, e.caption = none → entryCaptionFrag e = "")
    ∧ (∀ e : SectionEntry, e.location = none → entryLocationFrag e = "")
    ∧ (∀ e : SectionEntry, e.dates = none → entryDatesFrag e = "")
    ∧ (∀ e : SectionEntry, e.description = none → entryDescriptionFrag e = "")
    ∧ (∀ r : Resume, render_contact_info r = contactH1 r.contact_info ++
        contactDetailsBlock r.contact_info ++ contactEnding r.contact_info.tag_line)
    ∧ (∀ ci : ContactInfo, ci.details = none → contactDetailsBlock ci = "")
    ∧ (∀ tl : Option StrLike, tl = none → contactEnding tl = "<br>\n")
    ∧ (∀ r : Resume, ∀ sm : Summary, r.summary = some sm → sm.title = none →
        render_summary r = "<div class=\x27container\x27>\n" ++ "<section>\n" ++
          "<h2>" ++ "None" ++ "</h2>\n" ++ "<div class=\"entry\">\n" ++
          "<p>\n" ++ pyShow sm.description ++ "</p>\n" ++ "</div>" ++ "</section>\n" ++
          "</div>\n")
    ∧ (∀ r : Resume, ∀ sm : Summary, r.summary = some sm → sm.description = none →
        render_summary r = "<div class=\x27container\x27>\n" ++ "<section>\n" ++
          "<h2>" ++ pyShow sm.title ++ "</h2>\n" ++ "<div class=\"entry\">\n" ++
          "<p>\n" ++ "None" ++ "</p>\n" ++ "</div>" ++ "</section>\n" ++ "</div>\n") := by
  refine ⟨render_section_decomp, ?_, ?_, ?_, ?_, ?_, render_contact_info_decomp, ?_, ?_, ?_, ?_⟩
  · intro e h; simp [entryTitleFrag, h, truthyOpt]
  · intro e h; simp [entryCaptionFrag, h, truthyOpt]
  · intro e h; simp [entryLocationFrag, h, truthyOpt]
  · intro e h; simp [entryDatesFrag, h, truthyOpt]
  · intro e h; simp [entryDescriptionFrag, h, truthyOpt]
  · intro ci h; simp [contactDetailsBlock, h, truthyDetails]
  · intro tl h; simp [contactEnding, h, truthyOpt]
  · intro r sm h ht
    simp only [render_summary, h, ht]
    rfl
  · intro r sm h hd
    simp only [render_summary, h, hd]
    rfl

/-- C2 witness: the amended statement applied at concrete inputs. -/
theorem c2_witness :
    entryTitleFrag ⟨none, none, none, none, none⟩ = ""
    ∧ contactEnding none = "<br>\n"
    ∧ render_summary ⟨⟨.str "N", none, none⟩, [], some ⟨none, some (.str "D")⟩⟩ =
      "<div class=\x27container\x27>\n" ++ "<section>\n" ++ "<h2>" ++ "None" ++ "</h2>\n" ++
        "<div class=\"entry\">\n" ++ "<p>\n" ++
        pyShow (some (.str "D") : Option StrLike) ++ "</p>\n" ++ "</div>" ++
        "</section>\n" ++ "</div>\n" :=
  ⟨c2_amended.2.1 _ rfl, c2_amended.2.2.2.2.2.2.2.2.1 none rfl,
    c2_amended.2.2.2.2.2.2.2.2.2.1 _ ⟨none, some (.str "D")⟩ rfl rfl⟩

/-- C4: the contact fragment is the name heading, then the detail-list
block (one item per detail, in order, only when details are truthy),
then exactly one of the two mutually exclusive endings: the tagline
paragraph when the tagline is present (truthy), else the fixed
line-break fallback; the two endings are proved distinct, so never
both. -/
theorem c4_contact_info (r : Resume) :
    render_contact_info r = contactH1 r.contact_info ++ contactDetailsBlock r.contact_info ++
        contactEnding r.contact_info.tag_line
    ∧ contactH1 r.contact_info = "<h1 id=\"name\">" ++ pyStr r.contact_info.name ++ "</h1>\n"
    ∧ (truthyDetails r.contact_info.details = true →
        contactDetailsBlock r.contact_info = "<ul id=\"contact\">\n" ++
          strConcatMap (fun d => "<li>" ++ pyStr d ++ "</li>\n")
            (r.contact_info.details.getD []) ++ "</ul>\n")
    ∧ (truthyDetails r.contact_info.details = false → contactDetailsBlock r.contact_info = "")
    ∧ (truthyOpt r.contact_info.tag_line = true →
        contactEnding r.contact_info.tag_line = taglinePara r.contact_info.tag_line)
    ∧ (truthyOpt r.contact_info.tag_line = false →
        contactEnding r.contact_info.tag_line = "<br>\n")
    ∧ taglinePara r.contact_info.tag_line ≠ "<br>\n" := by
  refine ⟨render_contact_info_decomp r, rfl, ?_, ?_, ?_, ?_, ?_⟩
  · intro h; simp [contactDetailsBlock, h]
  · intro h; simp [contactDetailsBlock, h]
  · intro h; simp [contactEnding, h]
  · intro h; simp [contactEnding, h]
  · intro h
    have hlen := congrArg String.length h
    simp only [taglinePara, String.length_append] at hlen
    have h1 : ("<p id=\"objective\">" : String).length = 18 := rfl
    have h2 : ("</p>\n" : String).length = 5 := rfl
    have h3 : ("<br>\n" : String).length = 5 := rfl
    rw [h1, h2, h3] at hlen
    omega

/-- C4 witness: concrete contact infos covering the truthy and falsy
branches. -/
theorem c4_witness :
    contactDetailsBlock ⟨.str "N", some [.str "e"], none⟩ =
      "<ul id=\"contact\">\n" ++
        strConcatMap (fun d => "<li>" ++ pyStr d ++ "</li>\n") [StrLike.str "e"] ++ "</ul>\n"
    ∧ contactEnding (some (.str "tag")) = taglinePara (some (.str "tag"))
    ∧ contactEnding (none : Option StrLike) = "<br>\n" :=
  ⟨(c4_contact_info ⟨⟨.str "N", some [.str "e"], none⟩, [], none⟩).2.2.1 rfl,
   (c4_contact_info ⟨⟨.str "N", none, some (.str "tag")⟩, [], none⟩).2.2.2.2.1 rfl,
   (c4_contact_info ⟨⟨.str "N", none, none⟩, [], none⟩).2.2.2.2.2.1 rfl⟩

/-- C5: a section renders the fixed skeleton, the conditional section
title, and one entry container per entry in input order; inside an entry
the five fields appear in the fixed order, each conditionally, absent
(falsy) fields omitted entirely, while the container div is emitted even
when every field is absent. -/
theorem c5_render_section (sec : Section) (e : SectionEntry) :
    render_section sec = "<div class=\x27container\x27>\n" ++ "<section>\n" ++
      sectionTitleFrag sec.title ++ strConcatMap entryFrag sec.entries ++ "</section>\n" ++
      "</div>\n"
    ∧ entryFrag e = "<div class=\"entry\">\n" ++ entryTitleFrag e ++ entryCaptionFrag e ++
        entryLocationFrag e ++ entryDatesFrag e ++ entryDescriptionFrag e ++ "</div>\n"
    ∧ (truthyOpt e.title = true → entryTitleFrag e = "<h3>" ++ pyShow e.title ++ "</h3>\n")
    ∧ (truthyOpt e.title = false → entryTitleFrag e = "")
    ∧ (truthyOpt e.caption = true →
        entryCaptionFrag e = "<span class=\"role\">" ++ pyShow e.caption ++ "</span>\n")
    ∧ (truthyOpt e.caption = false → entryCaptionFrag e = "")
    ∧ (truthyOpt e.location = true →
        entryLocationFrag e = "<span class=\"loc\">" ++ pyShow e.location ++ "</span>\n")
    ∧ (truthyOpt e.location = false → entryLocationFrag e = "")
    ∧ (truthyOpt e.dates = true →
        entryDatesFrag e = "<span class=\"date\">" ++ pyShow e.dates ++ "</span>\n")
    ∧ (truthyOpt e.dates = false → entryDatesFrag e = "")
    ∧ (truthyOpt e.description = true →
        entryDescriptionFrag e = "<p>\n" ++ pyShow e.description ++ "</p>\n")
    ∧ (truthyOpt e.description = false → entryDescriptionFrag e = "")
    ∧ entryFrag ⟨none, none, none, none, none⟩ = "<div class=\"entry\">\n" ++ "</div>\n" := by
  refine ⟨render_section_decomp sec, rfl, ?_, ?_, ?_, ?_, ?_, ?_, ?_, ?_, ?_, ?_, ?_⟩
  · intro h; simp [entryTitleFrag, h]
  · intro h; simp [entryTitleFrag, h]
  · intro h; simp [entryCaptionFrag, h]
  · intro h; simp [entryCaptionFrag, h]
  · intro h; simp [entryLocationFrag, h]
  · intro h; simp [entryLocationFrag, h]
  · intro h; simp [entryDatesFrag, h]
  · intro h; simp [entryDatesFrag, h]
  · intro h; simp [entryDescriptionFrag, h]
  · intro h; simp [entryDescriptionFrag, h]
  · decide

/-- C5 witness: the conditional fragments at a concrete entry with a
title and dates but no caption, location or description. -/
theorem c5_witness :
    entryTitleFrag ⟨some (.str "T"), none, none, some (.str "2020"), none⟩ =
      "<h3>" ++ pyShow (some (.str "T") : Option StrLike) ++ "</h3>\n"
    ∧ entryCaptionFrag ⟨some (.str "T"), none, none, some (.str "2020"), none⟩ = "" :=
  ⟨(c5_render_section ⟨.str "S", []⟩
      ⟨some (.str "T"), none, none, some (.str "2020"), none⟩).2.2.1 rfl,
   (c5_render_section ⟨.str "S", []⟩
      ⟨some (.str "T"), none, none, some (.str "2020"), none⟩).2.2.2.2.2.1 rfl⟩

/-- C10: absence is decided by Python truthiness, not only by None: an
empty details list suppresses the contact list block, an empty-string
tagline falls back to the line break, and an empty-string entry field is
omitted entirely, exactly as if the field were absent. -/
theorem c10_truthiness (r : Resume) (e : SectionEntry) :
    (r.contact_info.details = some [] →
      render_contact_info r = contactH1 r.contact_info ++
        contactEnding r.contact_info.tag_line)
    ∧ (r.contact_info.tag_line = some (.str "") →
      render_contact_info r = contactH1 r.contact_info ++
        contactDetailsBlock r.contact_info ++ "<br>\n")
    ∧ (e.title = some (.str "") → entryTitleFrag e = "")
    ∧ (e.caption = some (.str "") → entryCaptionFrag e = "")
    ∧ (e.location = some (.str "") → entryLocationFrag e = "")
    ∧ (e.dates = some (.str "") → entryDatesFrag e = "")
    ∧ (e.description = some (.str "") → entryDescriptionFrag e = "") := by
  refine ⟨?_, ?_, ?_, ?_, ?_, ?_, ?_⟩
  · intro h
    rw [render_contact_info_decomp r]
    rw [show contactDetailsBlock r.contact_info = "" from by
      simp [contactDetailsBlock, h, truthyDetails]]
    rw [String.append_empty]
  · intro h
    rw [render_contact_info_decomp r]
    rw [show contactEnding r.contact_info.tag_line = "<br>\n" from by
      simp [contactEnding, h, truthyOpt, truthyStrLike]]
  · intro h; simp [entryTitleFrag, h, truthyOpt, truthyStrLike]
  · intro h; simp [entryCaptionFrag, h, truthyOpt, truthyStrLike]
  · intro h; simp [entryLocationFrag, h, truthyOpt, truthyStrLike]
  · intro h; simp [entryDatesFrag, h, truthyOpt, truthyStrLike]
  · intro h; simp [entryDescriptionFrag, h, truthyOpt, truthyStrLike]

/-- C10 witness: concrete inputs with an empty details list and an
empty-string entry title. -/
theorem c10_witness :
    render_contact_info ⟨⟨.str "N", some [], none⟩, [], none⟩ =
      contactH1 ⟨.str "N", some [], none⟩ ++ contactEnding (none : Option StrLike)
    ∧ entryTitleFrag ⟨some (.str ""), none, none, none, none⟩ = "" :=
  ⟨(c10_truthiness ⟨⟨.str "N", some [], none⟩, [], none⟩
      ⟨some (.str ""), none, none, none, none⟩).1 rfl,
   (c10_truthiness ⟨⟨.str "N", some [], none⟩, [], none⟩
      ⟨some (.str ""), none, none, none, none⟩).2.2.1 rfl⟩

end ResumeBuilder
